import Mathlib

/-!
Verification development for the order/payment subsystem of the growwise
backend.  The Lean definitions below are a shallow embedding of the
JavaScript source:

* `GW.SupabaseAdapter.*` embeds the database adapter
  (class SupabaseAdapter): the orders table is a `List GW.Order`; the
  supabase client queries are modelled by list lookups, with a `fault`
  flag standing for a client-side error on the one mutating query.
* `GW.OrderService.*` embeds class OrderService (the try/catch wrappers
  around the adapter).  The read wrappers are embedded as functions of
  the adapter call outcome (`Except String _`), which is how a
  try/catch over an awaited call is rendered in a pure embedding.
* `GW.handleEvent` / `GW.handleWebhook` embed the Stripe webhook route
  (app.post /api/payment/webhook): signature verification is an
  external input, modelled as the `Except` outcome of
  stripe.webhooks.constructEvent.
* `GW.createCheckout` embeds the create-checkout-session route
  (router.post /create-checkout-session): the Stripe client and the
  clock are modelled by an explicit environment `GW.CheckoutEnv`.

JavaScript numbers are modelled by `Rat`; JS truthiness of optional
strings and numbers is modelled on `Option` (absent and falsy collapse
to `none` where only truthiness is observed).  Timestamps are `Nat`
milliseconds.  Logging is modelled only for the webhook route, where
the specification talks about logged warnings and errors.
-/

namespace GW

/-- Order status, the three values the source stores in the status
column: pending, paid, failed. -/
inductive Status where
  | pending
  | paid
  | failed
deriving Repr, DecidableEq

/-- A cart item as received in the request body.  Fields are optional
because the route validates their presence (JS truthiness): id and
name must be truthy strings, price must be a number, quantity must be
truthy. -/
structure Item where
  id : Option String
  name : Option String
  price : Option Rat
  quantity : Option Rat
deriving Repr, DecidableEq

/-- An order record, the image of mapSupabaseOrderToOrder over a row of
the orders table. -/
structure Order where
  id : String
  status : Status
  itemsList : List Item
  customerEmail : Option String
  customerName : Option String
  customerPhone : Option String
  locale : String
  totalAmount : Rat
  amountPaid : Option Rat
  currency : Option String
  stripeSessionId : Option String
  stripePaymentIntentId : Option String
  paidAt : Option Nat
  failedAt : Option Nat
  errorMessage : Option String
  shippingName : Option String
  shippingLine1 : Option String
  shippingLine2 : Option String
  shippingCity : Option String
  shippingState : Option String
  shippingPostalCode : Option String
  shippingCountry : Option String
  taxAmount : Option Rat
  taxRate : Option Rat
  processingFee : Rat
  createdAt : Nat
  updatedAt : Nat
deriving Repr, DecidableEq

/-- The additionalData argument of updateOrderStatus, restricted to
the keys the modelled routes ever pass.  Every field is optional;
`none` means the key is absent from the patch object.  For taxRate the
handler passes an explicit null, so the field is doubly optional:
`some none` means the key is present with value null. -/
structure UpdatePatch where
  stripeSessionId : Option String
  stripePaymentIntentId : Option String
  paidAt : Option Nat
  failedAt : Option Nat
  error : Option String
  amountPaid : Option Rat
  currency : Option String
  customerEmail : Option String
  customerName : Option String
  customerPhone : Option String
  shippingName : Option String
  shippingLine1 : Option String
  shippingLine2 : Option String
  shippingCity : Option String
  shippingState : Option String
  shippingPostalCode : Option String
  shippingCountry : Option String
  taxAmount : Option Rat
  taxRate : Option (Option Rat)
deriving Repr, DecidableEq

/-- The empty patch: no keys present. -/
def UpdatePatch.empty : UpdatePatch :=
  ⟨none, none, none, none, none, none, none, none, none, none,
   none, none, none, none, none, none, none, none, none⟩

/-- Takes the new value when the patch key is present (truthy), keeps
the old one otherwise; embeds the guarded column assignments of
updateOrderStatus. -/
def setIfSome (new : Option α) (old : Option α) : Option α :=
  match new with
  | some v => some v
  | none => old

/-- Applies an update patch to an order row exactly as the updateData
object of SupabaseAdapter.updateOrderStatus is built: status and
updated_at are always written, each other column only when the
corresponding key of additionalData passes its guard. -/
def applyPatch (o : Order) (st : Status) (p : UpdatePatch) (now : Nat) : Order :=
  { o with
    status := st
    updatedAt := now
    stripeSessionId := setIfSome p.stripeSessionId o.stripeSessionId
    stripePaymentIntentId := setIfSome p.stripePaymentIntentId o.stripePaymentIntentId
    paidAt := setIfSome p.paidAt o.paidAt
    failedAt := setIfSome p.failedAt o.failedAt
    errorMessage := setIfSome p.error o.errorMessage
    amountPaid := setIfSome p.amountPaid o.amountPaid
    currency := setIfSome p.currency o.currency
    customerEmail := setIfSome p.customerEmail o.customerEmail
    customerName := setIfSome p.customerName o.customerName
    customerPhone := setIfSome p.customerPhone o.customerPhone
    shippingName := setIfSome p.shippingName o.shippingName
    shippingLine1 := setIfSome p.shippingLine1 o.shippingLine1
    shippingLine2 := setIfSome p.shippingLine2 o.shippingLine2
    shippingCity := setIfSome p.shippingCity o.shippingCity
    shippingState := setIfSome p.shippingState o.shippingState
    shippingPostalCode := setIfSome p.shippingPostalCode o.shippingPostalCode
    shippingCountry := setIfSome p.shippingCountry o.shippingCountry
    taxAmount := setIfSome p.taxAmount o.taxAmount
    taxRate := match p.taxRate with
               | some v => v
               | none => o.taxRate }

/-- Lookup of the first row whose id column equals the given id: the
select query of getOrderById. -/
def lookupId (tbl : List Order) (oid : String) : Option Order :=
  List.find? (fun o => decide (o.id = oid)) tbl

/-- Embeds SupabaseAdapter.findOrderByStripeSessionId: a select on
stripe_session_id returning null on error or no row. -/
def SupabaseAdapter.findOrderByStripeSessionId (tbl : List Order) (sid : String) : Option Order :=
  List.find? (fun o => decide (o.stripeSessionId = some sid)) tbl

/-- Embeds SupabaseAdapter.getOrderById: select by id, and on a miss
fall back to the lookup by Stripe session id. -/
def SupabaseAdapter.getOrderById (tbl : List Order) (oid : String) : Option Order :=
  match lookupId tbl oid with
  | some o => some o
  | none => SupabaseAdapter.findOrderByStripeSessionId tbl oid

/-- Insertion step of the embedding of the SQL ordering
order by created_at desc used by getOrdersByEmail. -/
def insertByCreatedAtDesc (o : Order) : List Order → List Order
  | [] => [o]
  | x :: xs =>
      if x.createdAt ≤ o.createdAt then o :: x :: xs
      else x :: insertByCreatedAtDesc o xs

/-- Sorts rows newest first; embeds order by created_at desc. -/
def sortByCreatedAtDesc : List Order → List Order
  | [] => []
  | x :: xs => insertByCreatedAtDesc x (sortByCreatedAtDesc xs)

/-- Embeds SupabaseAdapter.getOrdersByEmail: rows whose customer_email
column equals the given string, newest first. -/
def SupabaseAdapter.getOrdersByEmail (tbl : List Order) (email : String) : List Order :=
  sortByCreatedAtDesc (tbl.filter (fun o => decide (o.customerEmail = some email)))

/-- Rewrites every row whose id column equals the given id (ids are
unique in reachable tables, so this is the single-row update of the
source). -/
def replaceRow (oid : String) (row2 : Order) (tbl : List Order) : List Order :=
  tbl.map (fun o => if o.id = oid then row2 else o)

/-- The update ... eq(id) ... select().single() step of
SupabaseAdapter.updateOrderStatus: errors when the client query fails
or when no row has the given id, otherwise rewrites the row. -/
def SupabaseAdapter.runUpdate (tbl : List Order) (fault : Bool) (oid : String)
    (st : Status) (p : UpdatePatch) (now : Nat) : Except String (List Order × Order) :=
  if fault then Except.error "supabase update error"
  else
    match lookupId tbl oid with
    | none => Except.error "no rows returned"
    | some row =>
        let row2 := applyPatch row st p now
        Except.ok (replaceRow oid row2 tbl, row2)

/-- Embeds SupabaseAdapter.updateOrderStatus: first the idempotency
guard (if the order is found and is already paid and the requested
status is also paid, return it unchanged), then the update query. -/
def SupabaseAdapter.updateOrderStatus (tbl : List Order) (fault : Bool) (oid : String)
    (st : Status) (p : UpdatePatch) (now : Nat) : Except String (List Order × Order) :=
  match SupabaseAdapter.getOrderById tbl oid with
  | some existing =>
      if existing.status = st ∧ st = Status.paid then Except.ok (tbl, existing)
      else SupabaseAdapter.runUpdate tbl fault oid st p now
  | none => SupabaseAdapter.runUpdate tbl fault oid st p now

/-- Inserts a new order row; errors on a client fault or when the
primary key is already taken.  Embeds SupabaseAdapter.createOrder. -/
def SupabaseAdapter.createOrder (tbl : List Order) (fault : Bool) (o : Order) :
    Except String (List Order × Order) :=
  if fault ∨ tbl.any (fun x => decide (x.id = o.id)) then
    Except.error "supabase insert error"
  else Except.ok (tbl ++ [o], o)

/-- Embeds OrderService.getOrderById as a function of the outcome of
the awaited adapter call: the catch block turns any thrown error into
null. -/
def OrderService.getOrderByIdFrom (dbOutcome : Except String (Option Order)) : Option Order :=
  match dbOutcome with
  | Except.ok v => v
  | Except.error _ => none

/-- Embeds OrderService.findOrderByStripeSessionId likewise: any
thrown error becomes null. -/
def OrderService.findOrderByStripeSessionIdFrom (dbOutcome : Except String (Option Order)) :
    Option Order :=
  match dbOutcome with
  | Except.ok v => v
  | Except.error _ => none

/-- Embeds OrderService.findPendingOrderByItems likewise: any thrown
error becomes null. -/
def OrderService.findPendingOrderByItemsFrom (dbOutcome : Except String (Option Order)) :
    Option Order :=
  match dbOutcome with
  | Except.ok v => v
  | Except.error _ => none

/-- Embeds OrderService.getOrdersByEmail likewise: any thrown error
becomes the empty list. -/
def OrderService.getOrdersByEmailFrom (dbOutcome : Except String (List Order)) : List Order :=
  match dbOutcome with
  | Except.ok v => v
  | Except.error _ => []

/-- OrderService.getOrderById wired to the (connected, fault-free)
Supabase adapter, as used by the webhook route. -/
def OrderService.getOrderById (tbl : List Order) (oid : String) : Option Order :=
  OrderService.getOrderByIdFrom (Except.ok (SupabaseAdapter.getOrderById tbl oid))

/-- OrderService.findOrderByStripeSessionId wired to the adapter. -/
def OrderService.findOrderByStripeSessionId (tbl : List Order) (sid : String) : Option Order :=
  OrderService.findOrderByStripeSessionIdFrom
    (Except.ok (SupabaseAdapter.findOrderByStripeSessionId tbl sid))

/-- OrderService.getOrdersByEmail wired to the adapter. -/
def OrderService.getOrdersByEmail (tbl : List Order) (email : String) : List Order :=
  OrderService.getOrdersByEmailFrom (Except.ok (SupabaseAdapter.getOrdersByEmail tbl email))

/-- Embeds OrderService.updateOrderStatus: rethrows adapter errors
wrapped in a new message. -/
def OrderService.updateOrderStatus (tbl : List Order) (fault : Bool) (oid : String)
    (st : Status) (p : UpdatePatch) (now : Nat) : Except String (List Order × Order) :=
  match SupabaseAdapter.updateOrderStatus tbl fault oid st p now with
  | Except.ok r => Except.ok r
  | Except.error e => Except.error ("Failed to update order: " ++ e)

/-- Embeds OrderService.createOrder: rethrows adapter errors wrapped
in a new message.  The generated order id and the timestamps are part
of the order value built by the caller. -/
def OrderService.createOrder (tbl : List Order) (fault : Bool) (o : Order) :
    Except String (List Order × Order) :=
  match SupabaseAdapter.createOrder tbl fault o with
  | Except.ok r => Except.ok r
  | Except.error e => Except.error ("Failed to create order: " ++ e)

/-- The checkout session object carried by checkout.session.completed
and checkout.session.async_payment_failed events, restricted to the
fields the webhook route reads. -/
structure SessionObj where
  id : String
  metadataOrderId : Option String
  metadataCustomerName : Option String
  customerEmail : Option String
  customerDetailsEmail : Option String
  customerDetailsName : Option String
  customerDetailsPhone : Option String
  shippingName : Option String
  shippingLine1 : Option String
  shippingLine2 : Option String
  shippingCity : Option String
  shippingState : Option String
  shippingPostalCode : Option String
  shippingCountry : Option String
  amountTotal : Int
  amountTax : Option Int
  currency : Option String
  paymentIntent : Option String
deriving Repr, DecidableEq

/-- The payment intent object carried by
payment_intent.payment_failed events, restricted to the fields the
route reads. -/
structure PaymentIntentObj where
  id : String
  lastPaymentErrorMessage : Option String
deriving Repr, DecidableEq

/-- A verified Stripe event, dispatched on by the webhook switch. -/
inductive StripeEvent where
  | checkoutSessionCompleted (s : SessionObj)
  | paymentIntentSucceeded (paymentIntentId : String)
  | paymentIntentFailed (p : PaymentIntentObj)
  | asyncPaymentFailed (s : SessionObj)
  | other (eventType : String)
deriving Repr, DecidableEq

/-- A log line emitted by the webhook route (only the warn and error
lines of the payment paths are modelled; info and debug lines carry no
specified behaviour). -/
inductive LogEntry where
  | warnLog (msg : String)
  | errorLog (msg : String)
deriving Repr, DecidableEq

/-- The HTTP outcome of the webhook route: a 400 on signature failure,
or the res.json success acknowledgment (with its optional message and
duplicate-payment warning flag). -/
inductive WebhookResp where
  | badRequest (msg : String)
  | ok (msg : Option String) (warning : Bool)
deriving Repr, DecidableEq

/-- True exactly on the success acknowledgment. -/
def WebhookResp.isAck : WebhookResp → Bool
  | WebhookResp.ok _ _ => true
  | WebhookResp.badRequest _ => false

/-- Result of one webhook delivery: the orders table afterwards, the
HTTP response, and the modelled log lines. -/
structure WebhookOutcome where
  tbl : List Order
  resp : WebhookResp
  logs : List LogEntry
deriving Repr, DecidableEq

/-- JS logical-or over optional values (the first operand wins when
truthy). -/
def jsOr (a b : Option α) : Option α :=
  match a with
  | some x => some x
  | none => b

/-- The tax amount the completed handler computes:
totalDetails.amount_tax truthy gives amount_tax / 100, else 0. -/
def sessionTaxAmount (s : SessionObj) : Rat :=
  match s.amountTax with
  | some t => if t ≠ 0 then (t : Rat) / 100 else 0
  | none => 0

/-- The additionalData object passed to updateOrderStatus by the
metadata-orderId branch of the checkout.session.completed case. -/
def paidPatchFromSession (s : SessionObj) (now : Nat) : UpdatePatch :=
  { UpdatePatch.empty with
    stripeSessionId := some s.id
    stripePaymentIntentId := s.paymentIntent
    paidAt := some now
    amountPaid := some ((s.amountTotal : Rat) / 100)
    currency := some (s.currency.getD "usd")
    customerEmail := jsOr s.customerEmail s.customerDetailsEmail
    customerName := jsOr s.customerDetailsName s.metadataCustomerName
    customerPhone := s.customerDetailsPhone
    shippingName := s.shippingName
    shippingLine1 := s.shippingLine1
    shippingLine2 := s.shippingLine2
    shippingCity := s.shippingCity
    shippingState := s.shippingState
    shippingPostalCode := s.shippingPostalCode
    shippingCountry := s.shippingCountry
    taxAmount := some (sessionTaxAmount s)
    taxRate := some none }

/-- The additionalData object passed by the fallback
(found-by-session-id) branch of checkout.session.completed. -/
def fallbackPaidPatch (s : SessionObj) (now : Nat) : UpdatePatch :=
  { UpdatePatch.empty with
    paidAt := some now
    amountPaid := some ((s.amountTotal : Rat) / 100)
    currency := some (s.currency.getD "usd") }

/-- The additionalData object of the payment_intent.payment_failed
case. -/
def piFailedPatch (p : PaymentIntentObj) (now : Nat) : UpdatePatch :=
  { UpdatePatch.empty with
    error := some (p.lastPaymentErrorMessage.getD "Payment failed")
    failedAt := some now }

/-- The additionalData object of the
checkout.session.async_payment_failed case. -/
def asyncFailedPatch (now : Nat) : UpdatePatch :=
  { UpdatePatch.empty with
    error := some "Payment failed"
    failedAt := some now }

/-- The paid-update attempt shared by both resolution branches of the
checkout.session.completed case, together with its enclosing catch
block: on success the webhook acknowledges with the updated table, on
a thrown error it logs and still acknowledges with the table
unchanged. -/
def paidUpdateStep (tbl : List Order) (now : Nat) (fault : Bool) (oid : String)
    (p : UpdatePatch) : WebhookOutcome :=
  match OrderService.updateOrderStatus tbl fault oid Status.paid p now with
  | Except.ok (t, _) => ⟨t, WebhookResp.ok none false, []⟩
  | Except.error e =>
      ⟨tbl, WebhookResp.ok none false,
        [LogEntry.errorLog ("Error updating order status: " ++ e)]⟩

/-- The failed-update attempt of the two payment-failed cases with its
enclosing catch block: errors are logged and swallowed. -/
def failedUpdateStep (tbl : List Order) (now : Nat) (fault : Bool) (oid : String)
    (p : UpdatePatch) : WebhookOutcome :=
  match OrderService.updateOrderStatus tbl fault oid Status.failed p now with
  | Except.ok (t, _) => ⟨t, WebhookResp.ok none false, []⟩
  | Except.error e =>
      ⟨tbl, WebhookResp.ok none false,
        [LogEntry.errorLog ("Error updating failed order status: " ++ e)]⟩

/-- Embeds the checkout.session.completed case of the webhook switch:
the already-processed and already-paid guards, the transition to paid,
the fallback lookup by session id, and the catch block that logs and
still acknowledges. -/
def handleCompleted (s : SessionObj) (tbl : List Order) (now : Nat) (fault : Bool) :
    WebhookOutcome :=
  match s.metadataOrderId with
  | some oid =>
      match OrderService.getOrderById tbl oid with
      | some existingOrder =>
          if existingOrder.stripeSessionId = some s.id ∧ existingOrder.status = Status.paid then
            ⟨tbl, WebhookResp.ok (some "Order already processed") false, []⟩
          else if existingOrder.status = Status.paid then
            ⟨tbl, WebhookResp.ok (some "Order already paid") true,
              [LogEntry.warnLog "Order is already paid. Duplicate payment attempt detected. Skipping update."]⟩
          else
            paidUpdateStep tbl now fault oid (paidPatchFromSession s now)
      | none =>
          paidUpdateStep tbl now fault oid (paidPatchFromSession s now)
  | none =>
      match OrderService.findOrderByStripeSessionId tbl s.id with
      | some order =>
          paidUpdateStep tbl now fault order.id (fallbackPaidPatch s now)
      | none =>
          ⟨tbl, WebhookResp.ok none false, [LogEntry.errorLog "Order not found for session"]⟩

/-- Embeds the payment_intent.payment_failed case: lookup by the
payment intent id through the session-id index, update to failed when
found, swallow any thrown error. -/
def handlePaymentIntentFailed (p : PaymentIntentObj) (tbl : List Order) (now : Nat)
    (fault : Bool) : WebhookOutcome :=
  match OrderService.findOrderByStripeSessionId tbl p.id with
  | some order => failedUpdateStep tbl now fault order.id (piFailedPatch p now)
  | none => ⟨tbl, WebhookResp.ok none false, []⟩

/-- Embeds the checkout.session.async_payment_failed case: update the
order named by the session metadata to failed, swallow any thrown
error. -/
def handleAsyncPaymentFailed (s : SessionObj) (tbl : List Order) (now : Nat)
    (fault : Bool) : WebhookOutcome :=
  match s.metadataOrderId with
  | some oid => failedUpdateStep tbl now fault oid (asyncFailedPatch now)
  | none => ⟨tbl, WebhookResp.ok none false, []⟩

/-- Embeds the webhook event switch after successful signature
verification. -/
def handleEvent (ev : StripeEvent) (tbl : List Order) (now : Nat) (fault : Bool) :
    WebhookOutcome :=
  match ev with
  | StripeEvent.checkoutSessionCompleted s => handleCompleted s tbl now fault
  | StripeEvent.paymentIntentSucceeded _ => ⟨tbl, WebhookResp.ok none false, []⟩
  | StripeEvent.paymentIntentFailed p => handlePaymentIntentFailed p tbl now fault
  | StripeEvent.asyncPaymentFailed s => handleAsyncPaymentFailed s tbl now fault
  | StripeEvent.other _ => ⟨tbl, WebhookResp.ok none false, []⟩

/-- Embeds the whole webhook route body (given that Stripe is
configured): the argument is the outcome of
stripe.webhooks.constructEvent, a 400 is returned when it threw, and
the event switch runs otherwise. -/
def handleWebhook (verified : Except String StripeEvent) (tbl : List Order) (now : Nat)
    (fault : Bool) : WebhookOutcome :=
  match verified with
  | Except.error e =>
      ⟨tbl, WebhookResp.badRequest ("Webhook Error: " ++ e),
        [LogEntry.errorLog "Webhook signature verification failed"]⟩
  | Except.ok ev => handleEvent ev tbl now fault

/-- The request body of POST /create-checkout-session, after the
destructuring with its default locale.  `items = none` covers both an
absent body field and a non-array value (the route rejects both
through the same check). -/
structure CheckoutReq where
  items : Option (List Item)
  customerEmail : Option String
  customerName : Option String
  locale : String
deriving Repr, DecidableEq

/-- The session object returned by stripe.checkout.sessions.retrieve,
restricted to the fields the route reads. -/
structure RetrievedSession where
  id : String
  sessionStatus : String
  url : String
deriving Repr, DecidableEq

/-- The session object returned by stripe.checkout.sessions.create,
restricted to the fields the route reads. -/
structure CreatedSession where
  id : String
  url : String
  paymentIntent : Option String
deriving Repr, DecidableEq

/-- External environment of one createCheckout call: the clock, the
generated order id, the behaviour of the two Stripe calls (an error
value models a thrown/timed-out request), and fault flags for the
three database writes the route performs. -/
structure CheckoutEnv where
  now : Nat
  newOrderId : String
  retrieve : String → Except String RetrievedSession
  create : Except String CreatedSession
  createOrderFault : Bool
  attachFault : Bool
  failUpdateFault : Bool
deriving Inhabited

/-- The HTTP outcome of the createCheckout route. -/
inductive CheckoutResp where
  | badRequest (msg : String)
  | serverError (msg : String)
  | okSession (sessionId : String) (orderId : String) (url : String) (warning : Bool)
deriving Repr, DecidableEq

/-- Result of one createCheckout call: the orders table afterwards,
the HTTP response, and whether each Stripe endpoint was called. -/
structure CheckoutOutcome where
  tbl : List Order
  resp : CheckoutResp
  retrieveCalled : Bool
  createCalled : Bool
deriving Repr, DecidableEq

/-- JS truthiness of an optional string: present and nonempty. -/
def jsTruthyStr (a : Option String) : Bool :=
  match a with
  | some s => decide (s ≠ "")
  | none => false

/-- JS truthiness of an optional number: present and nonzero. -/
def jsTruthyNum (a : Option Rat) : Bool :=
  match a with
  | some q => decide (q ≠ 0)
  | none => false

/-- The per-item validation of the route: id, name and quantity must
be truthy and price must be a number. -/
def validItem (i : Item) : Bool :=
  jsTruthyStr i.id && jsTruthyStr i.name && i.price.isSome && jsTruthyNum i.quantity

/-- The total in cents computed by the route:
items.reduce(sum + price * quantity * 100, 0). -/
def cartTotalCents (items : List Item) : Rat :=
  items.foldl (fun sum i => sum + i.price.getD 0 * i.quantity.getD 0 * 100) 0

/-- The id-and-quantity signature the duplicate-pending lookup
stringifies for each item list. -/
def itemSig (items : List Item) : List (Option String × Option Rat) :=
  items.map (fun i => (i.id, i.quantity))

/-- The predicate of the duplicate-pending find: pending status, equal
item count, equal stringified id+quantity sequence, created within the
last five minutes. -/
def dupMatch (items : List Item) (now : Nat) (o : Order) : Bool :=
  decide (o.status = Status.pending) &&
  decide (o.itemsList.length = items.length) &&
  decide (itemSig o.itemsList = itemSig items) &&
  decide ((now : Int) - 5 * 60 * 1000 < (o.createdAt : Int))

/-- The order value assembled by OrderService.createOrder for the
route: generated id, pending status, the request fields, the total
converted back to dollars, and the insert defaults of the adapter. -/
def newPendingOrder (oid : String) (items : List Item) (customerEmail customerName : Option String)
    (locale : String) (totalDollars : Rat) (now : Nat) : Order :=
  { id := oid
    status := Status.pending
    itemsList := items
    customerEmail := customerEmail
    customerName := customerName
    customerPhone := none
    locale := locale
    totalAmount := totalDollars
    amountPaid := none
    currency := none
    stripeSessionId := none
    stripePaymentIntentId := none
    paidAt := none
    failedAt := none
    errorMessage := none
    shippingName := none
    shippingLine1 := none
    shippingLine2 := none
    shippingCity := none
    shippingState := none
    shippingPostalCode := none
    shippingCountry := none
    taxAmount := none
    taxRate := none
    processingFee := 0
    createdAt := now
    updatedAt := now }

/-- The additionalData object attaching the created session to the
order (status stays pending). -/
def attachPatch (cs : CreatedSession) : UpdatePatch :=
  { UpdatePatch.empty with
    stripeSessionId := some cs.id
    stripePaymentIntentId := cs.paymentIntent }

/-- The additionalData object of the stripeError catch block. -/
def checkoutFailPatch (msg : String) : UpdatePatch :=
  { UpdatePatch.empty with error := some msg }

/-- The part of the route after the duplicate-pending guard: create
the pending order, call stripe.checkout.sessions.create, attach the
session id on success (errors swallowed), or mark the order failed and
rethrow into the outer 500 handler on a Stripe error. -/
def createNewOrderFlow (req : CheckoutReq) (env : CheckoutEnv) (tbl : List Order)
    (items : List Item) (totalAmountCents : Rat) (retrieveCalled : Bool) : CheckoutOutcome :=
  match OrderService.createOrder tbl env.createOrderFault
      (newPendingOrder env.newOrderId items req.customerEmail req.customerName req.locale
        (totalAmountCents / 100) env.now) with
  | Except.error _ => ⟨tbl, CheckoutResp.serverError "Failed to create order", retrieveCalled, false⟩
  | Except.ok (t1, order) =>
      match env.create with
      | Except.error msg =>
          let t2 :=
            match OrderService.updateOrderStatus t1 env.failUpdateFault order.id Status.failed
                (checkoutFailPatch msg) env.now with
            | Except.ok (t, _) => t
            | Except.error _ => t1
          ⟨t2, CheckoutResp.serverError "Failed to create checkout session", retrieveCalled, true⟩
      | Except.ok cs =>
          let t2 :=
            match OrderService.updateOrderStatus t1 env.attachFault order.id Status.pending
                (attachPatch cs) env.now with
            | Except.ok (t, _) => t
            | Except.error _ => t1
          ⟨t2, CheckoutResp.okSession cs.id order.id cs.url false, retrieveCalled, true⟩

/-- Embeds the POST /create-checkout-session route (given that Stripe
is configured): validation, the duplicate-pending guard with its
session-still-open check, then the create flow. -/
def createCheckout (req : CheckoutReq) (env : CheckoutEnv) (tbl : List Order) : CheckoutOutcome :=
  match req.items with
  | none => ⟨tbl, CheckoutResp.badRequest "Items array is required and cannot be empty", false, false⟩
  | some items =>
      if items.isEmpty then
        ⟨tbl, CheckoutResp.badRequest "Items array is required and cannot be empty", false, false⟩
      else if items.any (fun i => !(validItem i)) then
        ⟨tbl, CheckoutResp.badRequest "Each item must have id, name, price, and quantity", false, false⟩
      else
        let totalAmount := cartTotalCents items
        if totalAmount ≤ 0 then
          ⟨tbl, CheckoutResp.badRequest "Total amount must be greater than 0", false, false⟩
        else
          let existingOrders := OrderService.getOrdersByEmail tbl (req.customerEmail.getD "")
          match existingOrders.find? (dupMatch items env.now) with
          | some recentPendingOrder =>
              match recentPendingOrder.stripeSessionId with
              | some sid =>
                  match env.retrieve sid with
                  | Except.ok existingSession =>
                      if existingSession.sessionStatus = "open" then
                        ⟨tbl, CheckoutResp.okSession existingSession.id recentPendingOrder.id
                          existingSession.url true, true, false⟩
                      else createNewOrderFlow req env tbl items totalAmount true
                  | Except.error _ => createNewOrderFlow req env tbl items totalAmount true
              | none => createNewOrderFlow req env tbl items totalAmount false
          | none => createNewOrderFlow req env tbl items totalAmount false

/-!  Concrete fixtures used by the witness and counterexample
theorems below. -/

/-- A valid cart item: id c1, price 50, quantity 2. -/
def fixItem : Item := ⟨some "c1", some "Course", some (50 : Rat), some 2⟩

/-- A second valid cart item. -/
def fixItemB : Item := ⟨some "b2", some "Bootcamp", some ((200 : Rat)), some 1⟩

/-- A pending order for the fixture cart. -/
def fixPending : Order :=
  newPendingOrder "ORD-1" [fixItem] (some "a@b.c") none "en" (100 : Rat) 10

/-- The fixture order already paid under session cs_A. -/
def fixPaid : Order :=
  { fixPending with status := Status.paid, stripeSessionId := some "cs_A" }

/-- A completed/failed checkout session object carrying session id
cs_B and order id ORD-1 in its metadata. -/
def fixSessB : SessionObj :=
  ⟨"cs_B", some "ORD-1", none, none, none, none, none, none, none, none,
   none, none, none, none, 9998, none, some "usd", none⟩

/-- A failed payment intent object. -/
def fixPI : PaymentIntentObj := ⟨"pi_123", some "card declined"⟩

/-- A payment intent object whose id happens to equal the stored
session id cs_A (the only way the payment-failed lookup can resolve an
order). -/
def fixPIA : PaymentIntentObj := ⟨"cs_A", none⟩

/-- A valid cart item with id a, used by the duplicate-submission
claims. -/
def fixItA : Item := ⟨some "a", some "CourseA", some (10 : Rat), some 1⟩

/-- A valid cart item with id b, used by the duplicate-submission
claims. -/
def fixItB : Item := ⟨some "b", some "CourseB", some (20 : Rat), some 1⟩

/-- First checkout environment: clock 100, fresh id ORD-1, session
creation succeeds with cs_1. -/
def fixEnv1 : CheckoutEnv :=
  ⟨100, "ORD-1", fun _ => Except.error "no such session",
   Except.ok ⟨"cs_1", "https://pay/1", none⟩, false, false, false⟩

/-- Second checkout environment: clock 1100 (one second later), fresh
id ORD-2, retrieval reports cs_1 still open, creation would produce
cs_2. -/
def fixEnv2 : CheckoutEnv :=
  ⟨1100, "ORD-2", fun _ => Except.ok ⟨"cs_1", "open", "https://pay/1"⟩,
   Except.ok ⟨"cs_2", "https://pay/2", none⟩, false, false, false⟩

/-- An environment whose session-creation call throws a timeout. -/
def fixEnvTimeout : CheckoutEnv :=
  ⟨100, "ORD-9", fun _ => Except.error "no such session",
   Except.error "Request timed out", false, false, false⟩

end GW

namespace GW

/-!  Helper lemmas about the list-level store operations. -/

lemma mem_insertByCreatedAtDesc {o a : Order} {l : List Order} :
    a ∈ insertByCreatedAtDesc o l ↔ a = o ∨ a ∈ l := by
  induction l with
  | nil => simp [insertByCreatedAtDesc]
  | cons x xs ih =>
      unfold insertByCreatedAtDesc
      by_cases h : x.createdAt ≤ o.createdAt
      · simp [h]
      · simp only [h, if_false, List.mem_cons, ih]
        tauto

lemma mem_sortByCreatedAtDesc {a : Order} {l : List Order} :
    a ∈ sortByCreatedAtDesc l ↔ a ∈ l := by
  induction l with
  | nil => simp [sortByCreatedAtDesc]
  | cons x xs ih =>
      unfold sortByCreatedAtDesc
      rw [mem_insertByCreatedAtDesc]
      simp [ih]

lemma mem_getOrdersByEmail {tbl : List Order} {email : String} {o : Order} :
    o ∈ OrderService.getOrdersByEmail tbl email ↔ o ∈ tbl ∧ o.customerEmail = some email := by
  unfold OrderService.getOrdersByEmail OrderService.getOrdersByEmailFrom
    SupabaseAdapter.getOrdersByEmail
  rw [mem_sortByCreatedAtDesc, List.mem_filter]
  simp

lemma find?_unique_of_mem {α : Type} {p : α → Bool} {l : List α} {a : α}
    (ha : a ∈ l) (hpa : p a = true) (huniq : ∀ b ∈ l, p b = true → b = a) :
    l.find? p = some a := by
  cases hf : l.find? p with
  | none =>
      rw [List.find?_eq_none] at hf
      exact absurd hpa (hf a ha)
  | some b =>
      have hb := List.find?_some hf
      have hbl := List.mem_of_find?_eq_some hf
      rw [huniq b hbl hb]

lemma lookupId_nil {oid : String} : lookupId [] oid = none := rfl

lemma lookupId_cons {x : Order} {xs : List Order} {oid : String} :
    lookupId (x :: xs) oid = if x.id = oid then some x else lookupId xs oid := by
  unfold lookupId
  rw [List.find?_cons]
  by_cases h : x.id = oid <;> simp [h]

lemma replaceRow_cons {x : Order} {xs : List Order} {oid : String} {row2 : Order} :
    replaceRow oid row2 (x :: xs) =
      (if x.id = oid then row2 else x) :: replaceRow oid row2 xs := rfl

lemma findBySess_cons {x : Order} {xs : List Order} {sid : String} :
    SupabaseAdapter.findOrderByStripeSessionId (x :: xs) sid =
      if x.stripeSessionId = some sid then some x
      else SupabaseAdapter.findOrderByStripeSessionId xs sid := by
  unfold SupabaseAdapter.findOrderByStripeSessionId
  rw [List.find?_cons]
  by_cases h : x.stripeSessionId = some sid <;> simp [h]

lemma lookupId_eq_none {tbl : List Order} {oid : String} :
    lookupId tbl oid = none ↔ ∀ o ∈ tbl, o.id ≠ oid := by
  unfold lookupId
  rw [List.find?_eq_none]
  simp

lemma lookupId_id_eq {tbl : List Order} {oid : String} {o : Order}
    (h : lookupId tbl oid = some o) : o.id = oid := by
  have := List.find?_some h
  simpa using this

lemma mem_of_lookupId {tbl : List Order} {oid : String} {o : Order}
    (h : lookupId tbl oid = some o) : o ∈ tbl :=
  List.mem_of_find?_eq_some h

lemma eq_of_mem_nodup_id {tbl : List Order} (hnd : (tbl.map Order.id).Nodup) :
    ∀ {o b : Order}, o ∈ tbl → b ∈ tbl → b.id = o.id → b = o := by
  induction tbl with
  | nil => intro o b ho _ _; cases ho
  | cons x xs ih =>
      intro o b ho hb hbid
      rw [List.map_cons, List.nodup_cons] at hnd
      rcases List.mem_cons.mp hb with hbx | hbxs
      · rcases List.mem_cons.mp ho with hox | hoxs
        · rw [hbx, hox]
        · have hmem : o.id ∈ xs.map Order.id := List.mem_map_of_mem Order.id hoxs
          have hxid : x.id = o.id := by rw [← hbx]; exact hbid
          exact absurd (hxid ▸ hmem) hnd.1
      · rcases List.mem_cons.mp ho with hox | hoxs
        · have hmem : b.id ∈ xs.map Order.id := List.mem_map_of_mem Order.id hbxs
          have hxid : x.id = b.id := by rw [hox] at hbid; exact hbid.symm
          exact absurd (hxid ▸ hmem) hnd.1
        · exact ih hnd.2 hoxs hbxs hbid

lemma lookupId_of_mem_nodup {tbl : List Order} (hnd : (tbl.map Order.id).Nodup)
    {o : Order} (ho : o ∈ tbl) : lookupId tbl o.id = some o := by
  apply find?_unique_of_mem ho
  · simp
  · intro b hb hpb
    exact eq_of_mem_nodup_id hnd ho hb (by simpa using hpb)

lemma lookupId_append_left_fresh {l1 l2 : List Order} {oid : String}
    (h : ∀ o ∈ l1, o.id ≠ oid) : lookupId (l1 ++ l2) oid = lookupId l2 oid := by
  unfold lookupId
  rw [List.find?_append]
  have hnone : List.find? (fun o => decide (o.id = oid)) l1 = none := by
    rw [List.find?_eq_none]
    simpa using h
  rw [hnone]
  rfl

lemma lookupId_replace_self {tbl : List Order} {oid : String} {row2 : Order}
    (hid : row2.id = oid) (h : (lookupId tbl oid).isSome) :
    lookupId (replaceRow oid row2 tbl) oid = some row2 := by
  induction tbl with
  | nil => rw [lookupId_nil] at h; cases h
  | cons x xs ih =>
      rw [replaceRow_cons, lookupId_cons]
      by_cases hx : x.id = oid
      · simp only [if_pos hx, if_pos hid]
      · have h2 : (lookupId xs oid).isSome := by
          rw [lookupId_cons, if_neg hx] at h
          exact h
        simp only [if_neg hx]
        exact ih h2

lemma lookupId_replace_ne {tbl : List Order} {oid x : String} {row2 : Order}
    (hid : row2.id = oid) (hx : x ≠ oid) :
    lookupId (replaceRow oid row2 tbl) x = lookupId tbl x := by
  induction tbl with
  | nil => rfl
  | cons a xs ih =>
      rw [replaceRow_cons, lookupId_cons, lookupId_cons]
      by_cases ha : a.id = oid
      · have h1 : ¬row2.id = x := by rw [hid]; exact fun hc => hx hc.symm
        have h2 : ¬a.id = x := by rw [ha]; exact fun hc => hx hc.symm
        simp only [if_pos ha, if_neg h1, if_neg h2]
        exact ih
      · simp only [if_neg ha]
        by_cases hax : a.id = x
        · simp only [if_pos hax]
        · simp only [if_neg hax]
          exact ih

lemma replaceRow_map_id {tbl : List Order} {oid : String} {row2 : Order}
    (hid : row2.id = oid) : (replaceRow oid row2 tbl).map Order.id = tbl.map Order.id := by
  induction tbl with
  | nil => rfl
  | cons x xs ih =>
      rw [replaceRow_cons, List.map_cons, List.map_cons, ih]
      by_cases hx : x.id = oid
      · rw [if_pos hx, hid, hx]
      · rw [if_neg hx]

lemma replaceRow_append_fresh {l1 : List Order} {o0 row2 : Order} {oid : String}
    (h : ∀ o ∈ l1, o.id ≠ oid) (ho : o0.id = oid) :
    replaceRow oid row2 (l1 ++ [o0]) = l1 ++ [row2] := by
  induction l1 with
  | nil =>
      show replaceRow oid row2 [o0] = [row2]
      rw [replaceRow_cons, if_pos ho]
      rfl
  | cons x xs ih =>
      rw [List.cons_append, replaceRow_cons, if_neg (h x (List.mem_cons_self x xs))]
      rw [List.cons_append, ih (fun o hmem => h o (List.mem_cons_of_mem x hmem))]

lemma findBySess_eq_none {tbl : List Order} {sid : String} :
    SupabaseAdapter.findOrderByStripeSessionId tbl sid = none ↔
      ∀ o ∈ tbl, o.stripeSessionId ≠ some sid := by
  unfold SupabaseAdapter.findOrderByStripeSessionId
  rw [List.find?_eq_none]
  simp

lemma findBySess_sess_eq {tbl : List Order} {sid : String} {o : Order}
    (h : SupabaseAdapter.findOrderByStripeSessionId tbl sid = some o) :
    o.stripeSessionId = some sid := by
  have := List.find?_some h
  simpa using this

lemma mem_of_findBySess {tbl : List Order} {sid : String} {o : Order}
    (h : SupabaseAdapter.findOrderByStripeSessionId tbl sid = some o) : o ∈ tbl :=
  List.mem_of_find?_eq_some h

lemma findBySess_replace {tbl : List Order} {r row2 : Order} {sid : String}
    (hnd : (tbl.map Order.id).Nodup)
    (hfind : SupabaseAdapter.findOrderByStripeSessionId tbl sid = some r)
    (_hid : row2.id = r.id) (hsess : row2.stripeSessionId = some sid) :
    SupabaseAdapter.findOrderByStripeSessionId (replaceRow r.id row2 tbl) sid = some row2 := by
  induction tbl with
  | nil => cases hfind
  | cons x xs ih =>
      rw [List.map_cons, List.nodup_cons] at hnd
      rw [findBySess_cons] at hfind
      rw [replaceRow_cons]
      by_cases hx : x.stripeSessionId = some sid
      · rw [if_pos hx] at hfind
        have hxr : x = r := by injection hfind
        rw [hxr, if_pos rfl, findBySess_cons, if_pos hsess]
      · rw [if_neg hx] at hfind
        have hrxs : r ∈ xs := mem_of_findBySess hfind
        have hxid : ¬x.id = r.id := by
          intro hcontr
          exact hnd.1 (hcontr ▸ List.mem_map_of_mem Order.id hrxs)
        rw [if_neg hxid, findBySess_cons, if_neg hx]
        exact ih hnd.2 hfind

end GW


namespace GW

/-!  Evaluation lemmas for the checkout route. -/

lemma updateOrderStatus_fresh_append (st : Status) (p : UpdatePatch) (now : Nat)
    {tbl : List Order} {order : Order}
    (hfresh : ∀ o ∈ tbl, o.id ≠ order.id)
    (hguard : ¬(order.status = st ∧ st = Status.paid)) :
    OrderService.updateOrderStatus (tbl ++ [order]) false order.id st p now =
      Except.ok (tbl ++ [applyPatch order st p now], applyPatch order st p now) := by
  have hlk : lookupId (tbl ++ [order]) order.id = some order := by
    rw [lookupId_append_left_fresh hfresh, lookupId_cons, if_pos rfl]
  unfold OrderService.updateOrderStatus SupabaseAdapter.updateOrderStatus
    SupabaseAdapter.getOrderById SupabaseAdapter.runUpdate
  simp only [hlk, if_neg hguard, Bool.false_eq_true, if_false,
    replaceRow_append_fresh hfresh rfl]

lemma createOrder_fresh {tbl : List Order} {order : Order}
    (hfresh : ∀ o ∈ tbl, o.id ≠ order.id) :
    OrderService.createOrder tbl false order = Except.ok (tbl ++ [order], order) := by
  unfold OrderService.createOrder SupabaseAdapter.createOrder
  have hany : tbl.any (fun x => decide (x.id = order.id)) = false := by
    rw [← Bool.not_eq_true, List.any_eq_true]
    rintro ⟨x, hx, hpx⟩
    exact hfresh x hx (by simpa using hpx)
  rw [if_neg]
  rintro (hc | hc)
  · cases hc
  · rw [hany] at hc; cases hc

lemma flow_provider_error (req : CheckoutReq) (env : CheckoutEnv) (tbl : List Order)
    (items : List Item) (total : Rat) (rc : Bool) {msg : String}
    (hcf : env.createOrderFault = false)
    (hff : env.failUpdateFault = false)
    (hcr : env.create = Except.error msg)
    (hfresh : ∀ o ∈ tbl, o.id ≠ env.newOrderId) :
    createNewOrderFlow req env tbl items total rc =
      ⟨tbl ++ [applyPatch
          (newPendingOrder env.newOrderId items req.customerEmail req.customerName req.locale
            (total / 100) env.now) Status.failed (checkoutFailPatch msg) env.now],
        CheckoutResp.serverError "Failed to create checkout session", rc, true⟩ := by
  have hfresh2 : ∀ o ∈ tbl, o.id ≠
      (newPendingOrder env.newOrderId items req.customerEmail req.customerName req.locale
        (total / 100) env.now).id := hfresh
  have hupd := updateOrderStatus_fresh_append Status.failed (checkoutFailPatch msg) env.now
    hfresh2 (by rintro ⟨_, hc⟩; exact Status.noConfusion hc)
  unfold createNewOrderFlow
  rw [hcf]
  simp only [createOrder_fresh hfresh2, hcr, hff, hupd]

lemma flow_provider_ok (req : CheckoutReq) (env : CheckoutEnv) (tbl : List Order)
    (items : List Item) (total : Rat) (rc : Bool) {cs : CreatedSession}
    (hcf : env.createOrderFault = false)
    (haf : env.attachFault = false)
    (hcr : env.create = Except.ok cs)
    (hfresh : ∀ o ∈ tbl, o.id ≠ env.newOrderId) :
    createNewOrderFlow req env tbl items total rc =
      ⟨tbl ++ [applyPatch
          (newPendingOrder env.newOrderId items req.customerEmail req.customerName req.locale
            (total / 100) env.now) Status.pending (attachPatch cs) env.now],
        CheckoutResp.okSession cs.id env.newOrderId cs.url false, rc, true⟩ := by
  have hfresh2 : ∀ o ∈ tbl, o.id ≠
      (newPendingOrder env.newOrderId items req.customerEmail req.customerName req.locale
        (total / 100) env.now).id := hfresh
  have hupd := updateOrderStatus_fresh_append Status.pending (attachPatch cs) env.now
    hfresh2 (by rintro ⟨_, hc⟩; exact Status.noConfusion hc)
  unfold createNewOrderFlow
  rw [hcf]
  simp only [createOrder_fresh hfresh2, hcr, haf, hupd]
  rfl

lemma createCheckout_to_flow (req : CheckoutReq) (env : CheckoutEnv) (tbl : List Order)
    (items : List Item)
    (hitems : req.items = some items) (hne : items ≠ [])
    (hval : ∀ i ∈ items, validItem i = true)
    (htot : 0 < cartTotalCents items)
    (hdup : (OrderService.getOrdersByEmail tbl (req.customerEmail.getD "")).find?
        (dupMatch items env.now) = none) :
    createCheckout req env tbl = createNewOrderFlow req env tbl items (cartTotalCents items) false := by
  have hempty : ¬(items.isEmpty = true) := by
    rw [List.isEmpty_iff]; exact hne
  have hany : ¬(items.any (fun i => !(validItem i)) = true) := by
    rw [List.any_eq_true]
    rintro ⟨i, hi, hbad⟩
    rw [hval i hi] at hbad
    cases hbad
  unfold createCheckout
  rw [hitems]
  simp only [if_neg hempty, if_neg hany, if_neg (not_le.mpr htot), hdup]

lemma createCheckout_dup_hit (req : CheckoutReq) (env : CheckoutEnv) (tbl : List Order)
    (items : List Item) {rpo : Order} {sid : String} {es : RetrievedSession}
    (hitems : req.items = some items) (hne : items ≠ [])
    (hval : ∀ i ∈ items, validItem i = true)
    (htot : 0 < cartTotalCents items)
    (hdup : (OrderService.getOrdersByEmail tbl (req.customerEmail.getD "")).find?
        (dupMatch items env.now) = some rpo)
    (hsid : rpo.stripeSessionId = some sid)
    (hretr : env.retrieve sid = Except.ok es)
    (hopen : es.sessionStatus = "open") :
    createCheckout req env tbl =
      ⟨tbl, CheckoutResp.okSession es.id rpo.id es.url true, true, false⟩ := by
  have hempty : ¬(items.isEmpty = true) := by
    rw [List.isEmpty_iff]; exact hne
  have hany : ¬(items.any (fun i => !(validItem i)) = true) := by
    rw [List.any_eq_true]
    rintro ⟨i, hi, hbad⟩
    rw [hval i hi] at hbad
    cases hbad
  unfold createCheckout
  rw [hitems]
  simp only [if_neg hempty, if_neg hany, if_neg (not_le.mpr htot), hdup, hsid, hretr,
    if_pos hopen]

end GW

namespace GW

/-!  Branch evaluation lemmas for the webhook handlers. -/

lemma serviceGetOrderById_eq (tbl : List Order) (oid : String) :
    OrderService.getOrderById tbl oid = SupabaseAdapter.getOrderById tbl oid := rfl

lemma serviceFindBySess_eq (tbl : List Order) (sid : String) :
    OrderService.findOrderByStripeSessionId tbl sid =
      SupabaseAdapter.findOrderByStripeSessionId tbl sid := rfl

lemma getOrderById_of_lookup {tbl : List Order} {oid : String} {row : Order}
    (hrow : lookupId tbl oid = some row) :
    SupabaseAdapter.getOrderById tbl oid = some row := by
  unfold SupabaseAdapter.getOrderById
  simp only [hrow]

lemma getOrderById_none_parts {tbl : List Order} {oid : String}
    (h : SupabaseAdapter.getOrderById tbl oid = none) :
    lookupId tbl oid = none ∧ SupabaseAdapter.findOrderByStripeSessionId tbl oid = none := by
  unfold SupabaseAdapter.getOrderById at h
  cases hrow : lookupId tbl oid with
  | some row => rw [hrow] at h; cases h
  | none => rw [hrow] at h; exact ⟨rfl, h⟩

lemma updateOrderStatus_noop {tbl : List Order} {oid : String} {ex : Order} {fault : Bool}
    {p : UpdatePatch} {now : Nat}
    (hlk : SupabaseAdapter.getOrderById tbl oid = some ex) (hp : ex.status = Status.paid) :
    OrderService.updateOrderStatus tbl fault oid Status.paid p now = Except.ok (tbl, ex) := by
  unfold OrderService.updateOrderStatus SupabaseAdapter.updateOrderStatus
  rw [hlk]
  simp [hp]

lemma updateOrderStatus_apply {tbl : List Order} {oid : String} {row : Order} {st : Status}
    {p : UpdatePatch} {now : Nat}
    (hrow : lookupId tbl oid = some row)
    (hnp : ¬(row.status = st ∧ st = Status.paid)) :
    OrderService.updateOrderStatus tbl false oid st p now =
      Except.ok (replaceRow oid (applyPatch row st p now) tbl, applyPatch row st p now) := by
  unfold OrderService.updateOrderStatus SupabaseAdapter.updateOrderStatus
    SupabaseAdapter.runUpdate
  simp only [getOrderById_of_lookup hrow, if_neg hnp, Bool.false_eq_true, if_false, hrow]

lemma updateOrderStatus_error_no_id_row {tbl : List Order} {oid : String} {st : Status}
    {p : UpdatePatch} {now : Nat}
    (hrow : lookupId tbl oid = none)
    (hguard : ∀ q, SupabaseAdapter.findOrderByStripeSessionId tbl oid = some q →
      ¬(q.status = st ∧ st = Status.paid)) :
    ∃ e, OrderService.updateOrderStatus tbl false oid st p now = Except.error e := by
  unfold OrderService.updateOrderStatus SupabaseAdapter.updateOrderStatus
    SupabaseAdapter.getOrderById SupabaseAdapter.runUpdate
  cases hfb : SupabaseAdapter.findOrderByStripeSessionId tbl oid with
  | some q =>
      simp only [hrow, hfb, if_neg (hguard q hfb), Bool.false_eq_true, if_false]
      exact ⟨_, rfl⟩
  | none =>
      simp only [hrow, hfb, Bool.false_eq_true, if_false]
      exact ⟨_, rfl⟩

lemma paidUpdateStep_ok {tbl t : List Order} {now : Nat} {fault : Bool} {oid : String}
    {p : UpdatePatch} {r : Order}
    (h : OrderService.updateOrderStatus tbl fault oid Status.paid p now = Except.ok (t, r)) :
    paidUpdateStep tbl now fault oid p = ⟨t, WebhookResp.ok none false, []⟩ := by
  unfold paidUpdateStep
  simp only [h]

lemma paidUpdateStep_error {tbl : List Order} {now : Nat} {fault : Bool} {oid : String}
    {p : UpdatePatch} {e : String}
    (h : OrderService.updateOrderStatus tbl fault oid Status.paid p now = Except.error e) :
    paidUpdateStep tbl now fault oid p =
      ⟨tbl, WebhookResp.ok none false,
        [LogEntry.errorLog ("Error updating order status: " ++ e)]⟩ := by
  unfold paidUpdateStep
  simp only [h]

lemma failedUpdateStep_ok {tbl t : List Order} {now : Nat} {fault : Bool} {oid : String}
    {p : UpdatePatch} {r : Order}
    (h : OrderService.updateOrderStatus tbl fault oid Status.failed p now = Except.ok (t, r)) :
    failedUpdateStep tbl now fault oid p = ⟨t, WebhookResp.ok none false, []⟩ := by
  unfold failedUpdateStep
  simp only [h]

lemma handleCompleted_guard1 {s : SessionObj} {tbl : List Order} {now : Nat} {fault : Bool}
    {oid : String} {ex : Order}
    (hm : s.metadataOrderId = some oid)
    (hlk : OrderService.getOrderById tbl oid = some ex)
    (h1 : ex.stripeSessionId = some s.id ∧ ex.status = Status.paid) :
    handleCompleted s tbl now fault =
      ⟨tbl, WebhookResp.ok (some "Order already processed") false, []⟩ := by
  unfold handleCompleted
  simp only [hm, hlk, if_pos h1]

lemma handleCompleted_guard2 {s : SessionObj} {tbl : List Order} {now : Nat} {fault : Bool}
    {oid : String} {ex : Order}
    (hm : s.metadataOrderId = some oid)
    (hlk : OrderService.getOrderById tbl oid = some ex)
    (h1 : ¬(ex.stripeSessionId = some s.id ∧ ex.status = Status.paid))
    (h2 : ex.status = Status.paid) :
    handleCompleted s tbl now fault =
      ⟨tbl, WebhookResp.ok (some "Order already paid") true,
        [LogEntry.warnLog "Order is already paid. Duplicate payment attempt detected. Skipping update."]⟩ := by
  unfold handleCompleted
  simp only [hm, hlk, if_neg h1, if_pos h2]

lemma handleCompleted_update_branch {s : SessionObj} {tbl : List Order} {now : Nat}
    {fault : Bool} {oid : String} {ex : Order}
    (hm : s.metadataOrderId = some oid)
    (hlk : OrderService.getOrderById tbl oid = some ex)
    (h2 : ¬ex.status = Status.paid) :
    handleCompleted s tbl now fault =
      paidUpdateStep tbl now fault oid (paidPatchFromSession s now) := by
  unfold handleCompleted
  simp only [hm, hlk, if_neg (fun hc : _ ∧ _ => h2 hc.2), if_neg h2]

lemma handleCompleted_update_none {s : SessionObj} {tbl : List Order} {now : Nat}
    {fault : Bool} {oid : String}
    (hm : s.metadataOrderId = some oid)
    (hlk : OrderService.getOrderById tbl oid = none) :
    handleCompleted s tbl now fault =
      paidUpdateStep tbl now fault oid (paidPatchFromSession s now) := by
  unfold handleCompleted
  simp only [hm, hlk]

lemma handleCompleted_fallback_some {s : SessionObj} {tbl : List Order} {now : Nat}
    {fault : Bool} {r : Order}
    (hm : s.metadataOrderId = none)
    (hf : OrderService.findOrderByStripeSessionId tbl s.id = some r) :
    handleCompleted s tbl now fault =
      paidUpdateStep tbl now fault r.id (fallbackPaidPatch s now) := by
  unfold handleCompleted
  simp only [hm, hf]

lemma handleCompleted_fallback_none {s : SessionObj} {tbl : List Order} {now : Nat}
    {fault : Bool}
    (hm : s.metadataOrderId = none)
    (hf : OrderService.findOrderByStripeSessionId tbl s.id = none) :
    handleCompleted s tbl now fault =
      ⟨tbl, WebhookResp.ok none false, [LogEntry.errorLog "Order not found for session"]⟩ := by
  unfold handleCompleted
  simp only [hm, hf]

lemma handleCompleted_ack (s : SessionObj) (tbl : List Order) (now : Nat) (fault : Bool) :
    (handleCompleted s tbl now fault).resp.isAck = true := by
  unfold handleCompleted paidUpdateStep
  repeat' split
  all_goals rfl

/-!  Claim theorems, counterexamples and witnesses. -/

/-- Claim C10: every read operation of the order service catches any
error raised by the underlying store and returns the not-found value
(null or the empty list), so callers cannot distinguish a store
failure from a genuinely absent record. -/
theorem claim_C10_service_reads_swallow_errors :
    ∀ e : String,
      OrderService.getOrderByIdFrom (Except.error e) = none ∧
      OrderService.findOrderByStripeSessionIdFrom (Except.error e) = none ∧
      OrderService.findPendingOrderByItemsFrom (Except.error e) = none ∧
      OrderService.getOrdersByEmailFrom (Except.error e) = [] ∧
      OrderService.getOrderByIdFrom (Except.error e) =
        OrderService.getOrderByIdFrom (Except.ok none) ∧
      OrderService.findOrderByStripeSessionIdFrom (Except.error e) =
        OrderService.findOrderByStripeSessionIdFrom (Except.ok none) ∧
      OrderService.findPendingOrderByItemsFrom (Except.error e) =
        OrderService.findPendingOrderByItemsFrom (Except.ok none) ∧
      OrderService.getOrdersByEmailFrom (Except.error e) =
        OrderService.getOrdersByEmailFrom (Except.ok []) := by
  intro e
  exact ⟨rfl, rfl, rfl, rfl, rfl, rfl, rfl, rfl⟩

/-- Claim C9: the payment_intent.payment_failed handler resolves the
order by passing the payment intent id to the session-id lookup, so
whenever no order carries that id as its stripeSessionId the handler
mutates nothing and acknowledges. -/
theorem claim_C9_payment_intent_failed_frame (tbl : List Order) (now : Nat) (fault : Bool)
    (p : PaymentIntentObj) (h : ∀ o ∈ tbl, o.stripeSessionId ≠ some p.id) :
    handleEvent (StripeEvent.paymentIntentFailed p) tbl now fault =
      ⟨tbl, WebhookResp.ok none false, []⟩ := by
  show handlePaymentIntentFailed p tbl now fault = _
  have hfind : OrderService.findOrderByStripeSessionId tbl p.id = none := by
    unfold OrderService.findOrderByStripeSessionId OrderService.findOrderByStripeSessionIdFrom
    rw [findBySess_eq_none.mpr h]
  unfold handlePaymentIntentFailed
  simp only [hfind]

/-- Witness for C9 at a concrete store and event. -/
theorem claim_C9_witness :
    handleEvent (StripeEvent.paymentIntentFailed fixPI) [fixPaid] 7 false =
      ⟨[fixPaid], WebhookResp.ok none false, []⟩ :=
  claim_C9_payment_intent_failed_frame [fixPaid] 7 false fixPI (by decide)

/-- Claim C4: a webhook request whose signature verification fails is
answered 400 with no order mutated; every request whose signature
verifies is acknowledged with success no matter what the event is and
no matter whether the store update throws. -/
theorem claim_C4_webhook_ack_policy (tbl : List Order) (now : Nat) (fault : Bool) :
    (∀ e : String, handleWebhook (Except.error e) tbl now fault =
        ⟨tbl, WebhookResp.badRequest ("Webhook Error: " ++ e),
          [LogEntry.errorLog "Webhook signature verification failed"]⟩) ∧
    (∀ ev : StripeEvent, (handleWebhook (Except.ok ev) tbl now fault).resp.isAck = true) := by
  refine ⟨fun e => rfl, fun ev => ?_⟩
  show (handleEvent ev tbl now fault).resp.isAck = true
  cases ev with
  | checkoutSessionCompleted s =>
      show (handleCompleted s tbl now fault).resp.isAck = true
      unfold handleCompleted paidUpdateStep
      repeat' split
      all_goals rfl
  | paymentIntentSucceeded pid => rfl
  | paymentIntentFailed p =>
      show (handlePaymentIntentFailed p tbl now fault).resp.isAck = true
      unfold handlePaymentIntentFailed failedUpdateStep
      repeat' split
      all_goals rfl
  | asyncPaymentFailed s =>
      show (handleAsyncPaymentFailed s tbl now fault).resp.isAck = true
      unfold handleAsyncPaymentFailed failedUpdateStep
      repeat' split
      all_goals rfl
  | other t => rfl

/-- Claim C5: a completed event that resolves (through its metadata
order id) to an order already paid under a different session id leaves
the whole table unchanged, logs the duplicate-payment warning, and
still acknowledges. -/
theorem claim_C5_duplicate_payment_frame (tbl : List Order) (o : Order) (s : SessionObj)
    (now : Nat) (fault : Bool)
    (hnd : (tbl.map Order.id).Nodup) (ho : o ∈ tbl)
    (hmeta : s.metadataOrderId = some o.id)
    (hpaid : o.status = Status.paid)
    (hdiff : o.stripeSessionId ≠ some s.id) :
    handleEvent (StripeEvent.checkoutSessionCompleted s) tbl now fault =
      ⟨tbl, WebhookResp.ok (some "Order already paid") true,
        [LogEntry.warnLog "Order is already paid. Duplicate payment attempt detected. Skipping update."]⟩ := by
  show handleCompleted s tbl now fault = _
  have hlk : OrderService.getOrderById tbl o.id = some o := by
    unfold OrderService.getOrderById OrderService.getOrderByIdFrom SupabaseAdapter.getOrderById
    simp only [lookupId_of_mem_nodup hnd ho]
  unfold handleCompleted
  simp only [hmeta, hlk, if_neg (fun hc : _ ∧ _ => hdiff hc.1), if_pos hpaid]

/-- Witness for C5 at a concrete store and event. -/
theorem claim_C5_witness :
    handleEvent (StripeEvent.checkoutSessionCompleted fixSessB) [fixPaid] 9 false =
      ⟨[fixPaid], WebhookResp.ok (some "Order already paid") true,
        [LogEntry.warnLog "Order is already paid. Duplicate payment attempt detected. Skipping update."]⟩ :=
  claim_C5_duplicate_payment_frame [fixPaid] fixPaid fixSessB 9 false
    (by simp) (List.mem_singleton.mpr rfl) rfl rfl (by decide)

/-- Claim C8: a createCheckout request whose items are absent or
empty, or contain an invalid item, or whose computed total is not
positive, is rejected with a 400, creates no order and issues no
provider request. -/
theorem claim_C8_cart_validation (req : CheckoutReq) (env : CheckoutEnv) (tbl : List Order)
    (h : match req.items with
         | none => True
         | some items =>
             items = [] ∨ (∃ i ∈ items, validItem i = false) ∨ cartTotalCents items ≤ 0) :
    (∃ m, (createCheckout req env tbl).resp = CheckoutResp.badRequest m) ∧
    (createCheckout req env tbl).tbl = tbl ∧
    (createCheckout req env tbl).retrieveCalled = false ∧
    (createCheckout req env tbl).createCalled = false := by
  have key : ∃ m, createCheckout req env tbl = ⟨tbl, CheckoutResp.badRequest m, false, false⟩ := by
    cases hi : req.items with
    | none =>
        refine ⟨"Items array is required and cannot be empty", ?_⟩
        unfold createCheckout
        rw [hi]
    | some items =>
        rw [hi] at h
        by_cases hemp : items.isEmpty = true
        · refine ⟨"Items array is required and cannot be empty", ?_⟩
          unfold createCheckout
          rw [hi]
          simp only [if_pos hemp]
        · by_cases hbad : items.any (fun i => !(validItem i)) = true
          · refine ⟨"Each item must have id, name, price, and quantity", ?_⟩
            unfold createCheckout
            rw [hi]
            simp only [if_neg hemp, if_pos hbad]
          · have htot : cartTotalCents items ≤ 0 := by
              rcases h with h1 | h2 | h3
              · exact absurd (by rw [h1]; rfl) hemp
              · exfalso
                rcases h2 with ⟨i, hi2, hv⟩
                apply hbad
                rw [List.any_eq_true]
                exact ⟨i, hi2, by rw [hv]; rfl⟩
              · exact h3
            refine ⟨"Total amount must be greater than 0", ?_⟩
            unfold createCheckout
            rw [hi]
            simp only [if_neg hemp, if_neg hbad, if_pos htot]
  rcases key with ⟨m, hm⟩
  rw [hm]
  exact ⟨⟨m, rfl⟩, rfl, rfl, rfl⟩

/-- Witness for C8: an item without a price is rejected. -/
theorem claim_C8_witness :
    (∃ m, (createCheckout ⟨some [⟨some "c1", some "Course", none, some 1⟩], none, none, "en"⟩
        fixEnv1 []).resp = CheckoutResp.badRequest m) ∧
    (createCheckout ⟨some [⟨some "c1", some "Course", none, some 1⟩], none, none, "en"⟩
        fixEnv1 []).tbl = [] ∧
    (createCheckout ⟨some [⟨some "c1", some "Course", none, some 1⟩], none, none, "en"⟩
        fixEnv1 []).retrieveCalled = false ∧
    (createCheckout ⟨some [⟨some "c1", some "Course", none, some 1⟩], none, none, "en"⟩
        fixEnv1 []).createCalled = false :=
  claim_C8_cart_validation ⟨some [⟨some "c1", some "Course", none, some 1⟩], none, none, "en"⟩
    fixEnv1 [] (by decide)

/-- Counterexample to claim C1 as stated: an order already paid is
moved to failed by a checkout.session.async_payment_failed event whose
metadata carries its order id, because the failed transition has no
still-pending guard. -/
theorem claim_C1_counterexample :
    fixPaid.status = Status.paid ∧
    fixSessB.metadataOrderId = some fixPaid.id ∧
    (handleEvent (StripeEvent.asyncPaymentFailed fixSessB) [fixPaid] 99 false).tbl.map Order.status
      = [Status.failed] ∧
    (handleEvent (StripeEvent.asyncPaymentFailed fixSessB) [fixPaid] 99 false).resp.isAck = true := by
  refine ⟨rfl, rfl, ?_, rfl⟩
  decide

/-- Claim C6 (provider failure): when validation passes, the duplicate
guard misses, the pending insert succeeds and the Stripe session
creation throws, the caller receives a 500 and the order record still
exists, transitioned to failed with the provider error message
recorded. -/
theorem claim_C6_provider_failure (req : CheckoutReq) (env : CheckoutEnv) (tbl : List Order)
    (items : List Item) (msg : String)
    (hitems : req.items = some items) (hne : items ≠ [])
    (hval : ∀ i ∈ items, validItem i = true)
    (htot : 0 < cartTotalCents items)
    (hdup : (OrderService.getOrdersByEmail tbl (req.customerEmail.getD "")).find?
        (dupMatch items env.now) = none)
    (hfresh : ∀ o ∈ tbl, o.id ≠ env.newOrderId)
    (hcf : env.createOrderFault = false) (hff : env.failUpdateFault = false)
    (hcr : env.create = Except.error msg) :
    (createCheckout req env tbl).resp =
      CheckoutResp.serverError "Failed to create checkout session" ∧
    ∃ failedOrder,
      lookupId (createCheckout req env tbl).tbl env.newOrderId = some failedOrder ∧
      failedOrder.status = Status.failed ∧
      failedOrder.errorMessage = some msg := by
  have hflow := createCheckout_to_flow req env tbl items hitems hne hval htot hdup
  have herr := flow_provider_error req env tbl items (cartTotalCents items) false hcf hff hcr hfresh
  rw [hflow, herr]
  refine ⟨rfl,
    applyPatch (newPendingOrder env.newOrderId items req.customerEmail req.customerName req.locale
      (cartTotalCents items / 100) env.now) Status.failed (checkoutFailPatch msg) env.now,
    ?_, rfl, rfl⟩
  have hidq : (applyPatch (newPendingOrder env.newOrderId items req.customerEmail req.customerName
      req.locale (cartTotalCents items / 100) env.now) Status.failed
      (checkoutFailPatch msg) env.now).id = env.newOrderId := rfl
  show lookupId (tbl ++ [_]) env.newOrderId = _
  rw [lookupId_append_left_fresh hfresh, lookupId_cons, if_pos hidq]

/-- Total in cents of the fixture cart, evaluated once for the
witnesses. -/
lemma fixCartTotal : cartTotalCents [fixItem] = 10000 := by
  unfold cartTotalCents fixItem
  norm_num

/-- Witness for C6 with a timed-out provider call. -/
theorem claim_C6_witness :
    (createCheckout ⟨some [fixItem], some "a@b.c", none, "en"⟩ fixEnvTimeout []).resp =
      CheckoutResp.serverError "Failed to create checkout session" ∧
    ∃ failedOrder,
      lookupId (createCheckout ⟨some [fixItem], some "a@b.c", none, "en"⟩ fixEnvTimeout []).tbl
        fixEnvTimeout.newOrderId = some failedOrder ∧
      failedOrder.status = Status.failed ∧
      failedOrder.errorMessage = some "Request timed out" :=
  claim_C6_provider_failure ⟨some [fixItem], some "a@b.c", none, "en"⟩ fixEnvTimeout [] [fixItem]
    "Request timed out" rfl (by decide) (by decide)
    (fixCartTotal ▸ (by norm_num : (0:Rat) < 10000)) rfl (by decide) rfl rfl rfl

end GW

namespace GW

/-- Evaluation lemma: the async-payment-failed case with an order id
in the session metadata runs the failed-update step on it. -/
lemma handleAsync_some {s : SessionObj} {tbl : List Order} {now : Nat} {fault : Bool}
    {oid : String} (hm : s.metadataOrderId = some oid) :
    handleAsyncPaymentFailed s tbl now fault =
      failedUpdateStep tbl now fault oid (asyncFailedPatch now) := by
  unfold handleAsyncPaymentFailed
  simp only [hm]

/-- Evaluation lemma: the payment-intent-failed case with a resolved
order runs the failed-update step on it. -/
lemma handlePIF_some {p : PaymentIntentObj} {tbl : List Order} {now : Nat} {fault : Bool}
    {r : Order} (hf : OrderService.findOrderByStripeSessionId tbl p.id = some r) :
    handlePaymentIntentFailed p tbl now fault =
      failedUpdateStep tbl now fault r.id (piFailedPatch p now) := by
  unfold handlePaymentIntentFailed
  simp only [hf]

/-- Claim C2: delivering the identical checkout.session.completed
event twice (whatever the resolution path) mutates the store only on
the first delivery — the second delivery leaves the table unchanged —
and both deliveries acknowledge success. -/
theorem claim_C2_webhook_idempotent (tbl : List Order) (s : SessionObj) (n1 n2 : Nat)
    (hnd : (tbl.map Order.id).Nodup) :
    (handleEvent (StripeEvent.checkoutSessionCompleted s)
        (handleEvent (StripeEvent.checkoutSessionCompleted s) tbl n1 false).tbl n2 false).tbl
      = (handleEvent (StripeEvent.checkoutSessionCompleted s) tbl n1 false).tbl ∧
    (handleEvent (StripeEvent.checkoutSessionCompleted s) tbl n1 false).resp.isAck = true ∧
    (handleEvent (StripeEvent.checkoutSessionCompleted s)
        (handleEvent (StripeEvent.checkoutSessionCompleted s) tbl n1 false).tbl n2 false).resp.isAck
      = true := by
  refine ⟨?_, handleCompleted_ack s tbl n1 false, handleCompleted_ack s _ n2 false⟩
  show (handleCompleted s (handleCompleted s tbl n1 false).tbl n2 false).tbl
      = (handleCompleted s tbl n1 false).tbl
  cases hm : s.metadataOrderId with
  | some oid =>
      cases hlk : OrderService.getOrderById tbl oid with
      | some ex =>
          by_cases h1 : ex.stripeSessionId = some s.id ∧ ex.status = Status.paid
          · rw [handleCompleted_guard1 hm hlk h1, handleCompleted_guard1 hm hlk h1]
          · by_cases h2 : ex.status = Status.paid
            · rw [handleCompleted_guard2 hm hlk h1 h2, handleCompleted_guard2 hm hlk h1 h2]
            · rw [handleCompleted_update_branch hm hlk h2]
              cases hrow : lookupId tbl oid with
              | some row =>
                  have hexrow : ex = row := by
                    rw [serviceGetOrderById_eq, getOrderById_of_lookup hrow] at hlk
                    injection hlk with h
                    exact h.symm
                  have hrowid : row.id = oid := lookupId_id_eq hrow
                  have hupd : OrderService.updateOrderStatus tbl false oid Status.paid
                      (paidPatchFromSession s n1) n1 =
                      Except.ok
                        (replaceRow oid (applyPatch row Status.paid (paidPatchFromSession s n1) n1) tbl,
                         applyPatch row Status.paid (paidPatchFromSession s n1) n1) :=
                    updateOrderStatus_apply hrow (fun hc => h2 (by rw [hexrow]; exact hc.1))
                  rw [paidUpdateStep_ok hupd]
                  have hid2 : (applyPatch row Status.paid (paidPatchFromSession s n1) n1).id = oid :=
                    hrowid
                  have hlk2 : OrderService.getOrderById
                      (replaceRow oid (applyPatch row Status.paid (paidPatchFromSession s n1) n1) tbl) oid
                      = some (applyPatch row Status.paid (paidPatchFromSession s n1) n1) := by
                    rw [serviceGetOrderById_eq]
                    exact getOrderById_of_lookup
                      (lookupId_replace_self hid2 (by rw [hrow]; rfl))
                  rw [handleCompleted_guard1 hm hlk2 ⟨rfl, rfl⟩]
              | none =>
                  have hfb : SupabaseAdapter.findOrderByStripeSessionId tbl oid = some ex := by
                    have h := hlk
                    rw [serviceGetOrderById_eq] at h
                    unfold SupabaseAdapter.getOrderById at h
                    rw [hrow] at h
                    exact h
                  have hguard : ∀ q, SupabaseAdapter.findOrderByStripeSessionId tbl oid = some q →
                      ¬(q.status = Status.paid ∧ Status.paid = Status.paid) := by
                    intro q hq
                    rw [hfb] at hq
                    injection hq with hq2
                    rw [hq2] at h2
                    exact fun hc => h2 hc.1
                  have herr : ∃ e, OrderService.updateOrderStatus tbl false oid Status.paid
                      (paidPatchFromSession s n1) n1 = Except.error e :=
                    updateOrderStatus_error_no_id_row hrow hguard
                  rcases herr with ⟨e1, he1⟩
                  rw [paidUpdateStep_error he1]
                  rw [handleCompleted_update_branch hm hlk h2]
                  have herr2 : ∃ e, OrderService.updateOrderStatus tbl false oid Status.paid
                      (paidPatchFromSession s n2) n2 = Except.error e :=
                    updateOrderStatus_error_no_id_row hrow hguard
                  rcases herr2 with ⟨e2, he2⟩
                  rw [paidUpdateStep_error he2]
      | none =>
          rw [handleCompleted_update_none hm hlk]
          have hparts := getOrderById_none_parts (by rw [← serviceGetOrderById_eq]; exact hlk)
          have hguard : ∀ q, SupabaseAdapter.findOrderByStripeSessionId tbl oid = some q →
              ¬(q.status = Status.paid ∧ Status.paid = Status.paid) := by
            intro q hq
            rw [hparts.2] at hq
            cases hq
          have herr : ∃ e, OrderService.updateOrderStatus tbl false oid Status.paid
              (paidPatchFromSession s n1) n1 = Except.error e :=
            updateOrderStatus_error_no_id_row hparts.1 hguard
          rcases herr with ⟨e1, he1⟩
          rw [paidUpdateStep_error he1]
          rw [handleCompleted_update_none hm hlk]
          have herr2 : ∃ e, OrderService.updateOrderStatus tbl false oid Status.paid
              (paidPatchFromSession s n2) n2 = Except.error e :=
            updateOrderStatus_error_no_id_row hparts.1 hguard
          rcases herr2 with ⟨e2, he2⟩
          rw [paidUpdateStep_error he2]
  | none =>
      cases hf : OrderService.findOrderByStripeSessionId tbl s.id with
      | some r =>
          have hfad : SupabaseAdapter.findOrderByStripeSessionId tbl s.id = some r := by
            rw [← serviceFindBySess_eq]; exact hf
          have hrmem : r ∈ tbl := mem_of_findBySess hfad
          have hrow : lookupId tbl r.id = some r := lookupId_of_mem_nodup hnd hrmem
          rw [handleCompleted_fallback_some hm hf]
          by_cases hp : r.status = Status.paid
          · have hnoop : OrderService.updateOrderStatus tbl false r.id Status.paid
                (fallbackPaidPatch s n1) n1 = Except.ok (tbl, r) :=
              updateOrderStatus_noop (getOrderById_of_lookup hrow) hp
            rw [paidUpdateStep_ok hnoop]
            rw [handleCompleted_fallback_some hm hf]
            have hnoop2 : OrderService.updateOrderStatus tbl false r.id Status.paid
                (fallbackPaidPatch s n2) n2 = Except.ok (tbl, r) :=
              updateOrderStatus_noop (getOrderById_of_lookup hrow) hp
            rw [paidUpdateStep_ok hnoop2]
          · have hupd : OrderService.updateOrderStatus tbl false r.id Status.paid
                (fallbackPaidPatch s n1) n1 =
                Except.ok
                  (replaceRow r.id (applyPatch r Status.paid (fallbackPaidPatch s n1) n1) tbl,
                   applyPatch r Status.paid (fallbackPaidPatch s n1) n1) :=
              updateOrderStatus_apply hrow (fun hc => hp hc.1)
            rw [paidUpdateStep_ok hupd]
            have hr2sess : (applyPatch r Status.paid (fallbackPaidPatch s n1) n1).stripeSessionId
                = some s.id := by
              show setIfSome none r.stripeSessionId = some s.id
              exact findBySess_sess_eq hfad
            have hf2 : OrderService.findOrderByStripeSessionId
                (replaceRow r.id (applyPatch r Status.paid (fallbackPaidPatch s n1) n1) tbl) s.id
                = some (applyPatch r Status.paid (fallbackPaidPatch s n1) n1) := by
              rw [serviceFindBySess_eq]
              exact findBySess_replace hnd hfad rfl hr2sess
            rw [handleCompleted_fallback_some hm hf2]
            have hlk2 : lookupId
                (replaceRow r.id (applyPatch r Status.paid (fallbackPaidPatch s n1) n1) tbl)
                (applyPatch r Status.paid (fallbackPaidPatch s n1) n1).id
                = some (applyPatch r Status.paid (fallbackPaidPatch s n1) n1) :=
              lookupId_replace_self rfl (by rw [hrow]; rfl)
            have hnoop2 : OrderService.updateOrderStatus
                (replaceRow r.id (applyPatch r Status.paid (fallbackPaidPatch s n1) n1) tbl) false
                (applyPatch r Status.paid (fallbackPaidPatch s n1) n1).id Status.paid
                (fallbackPaidPatch s n2) n2 =
                Except.ok
                  (replaceRow r.id (applyPatch r Status.paid (fallbackPaidPatch s n1) n1) tbl,
                   applyPatch r Status.paid (fallbackPaidPatch s n1) n1) :=
              updateOrderStatus_noop (getOrderById_of_lookup hlk2) rfl
            rw [paidUpdateStep_ok hnoop2]
      | none =>
          rw [handleCompleted_fallback_none hm hf, handleCompleted_fallback_none hm hf]


/-- Claim C1 amended: once an order is paid, handling any
checkout.session.completed event leaves its record entirely
unchanged; but the payment-failed handlers apply the failed transition
with no still-pending guard, so an async_payment_failed event carrying
the order id in its metadata, or a payment_intent.payment_failed event
whose intent id equals the stored session id, moves even a paid order
to failed. -/
theorem claim_C1_amended (tbl : List Order) (o : Order) (now : Nat)
    (hnd : (tbl.map Order.id).Nodup)
    (hsess : ∀ a ∈ tbl, ∀ b ∈ tbl, ∀ x : String,
      a.stripeSessionId = some x → b.stripeSessionId = some x → a = b)
    (ho : o ∈ tbl) (hpaid : o.status = Status.paid) :
    (∀ s : SessionObj,
      lookupId (handleEvent (StripeEvent.checkoutSessionCompleted s) tbl now false).tbl o.id
        = some o) ∧
    (∀ s : SessionObj, s.metadataOrderId = some o.id →
      (lookupId (handleEvent (StripeEvent.asyncPaymentFailed s) tbl now false).tbl o.id).map
        Order.status = some Status.failed) ∧
    (∀ p : PaymentIntentObj, o.stripeSessionId = some p.id →
      (lookupId (handleEvent (StripeEvent.paymentIntentFailed p) tbl now false).tbl o.id).map
        Order.status = some Status.failed) := by
  have hoid : lookupId tbl o.id = some o := lookupId_of_mem_nodup hnd ho
  refine ⟨?_, ?_, ?_⟩
  · intro s
    show lookupId (handleCompleted s tbl now false).tbl o.id = some o
    cases hm : s.metadataOrderId with
    | some oid =>
        cases hlk : OrderService.getOrderById tbl oid with
        | some ex =>
            by_cases h1 : ex.stripeSessionId = some s.id ∧ ex.status = Status.paid
            · rw [handleCompleted_guard1 hm hlk h1]
              exact hoid
            · by_cases h2 : ex.status = Status.paid
              · rw [handleCompleted_guard2 hm hlk h1 h2]
                exact hoid
              · rw [handleCompleted_update_branch hm hlk h2]
                cases hrow : lookupId tbl oid with
                | some row =>
                    have hexrow : ex = row := by
                      rw [serviceGetOrderById_eq, getOrderById_of_lookup hrow] at hlk
                      injection hlk with h
                      exact h.symm
                    have hrowid : row.id = oid := lookupId_id_eq hrow
                    have hne : o.id ≠ oid := by
                      intro hcontr
                      rw [← hcontr] at hrow
                      rw [hoid] at hrow
                      injection hrow with h
                      rw [hexrow] at h2
                      rw [h] at hpaid
                      exact h2 hpaid
                    have hupd : OrderService.updateOrderStatus tbl false oid Status.paid
                        (paidPatchFromSession s now) now =
                        Except.ok
                          (replaceRow oid (applyPatch row Status.paid (paidPatchFromSession s now) now) tbl,
                           applyPatch row Status.paid (paidPatchFromSession s now) now) :=
                      updateOrderStatus_apply hrow (fun hc => h2 (by rw [hexrow]; exact hc.1))
                    rw [paidUpdateStep_ok hupd]
                    have hid2 : (applyPatch row Status.paid (paidPatchFromSession s now) now).id
                        = oid := hrowid
                    show lookupId (replaceRow oid _ tbl) o.id = some o
                    rw [lookupId_replace_ne hid2 hne]
                    exact hoid
                | none =>
                    have hfb : SupabaseAdapter.findOrderByStripeSessionId tbl oid = some ex := by
                      have h := hlk
                      rw [serviceGetOrderById_eq] at h
                      unfold SupabaseAdapter.getOrderById at h
                      rw [hrow] at h
                      exact h
                    have hguard : ∀ q, SupabaseAdapter.findOrderByStripeSessionId tbl oid = some q →
                        ¬(q.status = Status.paid ∧ Status.paid = Status.paid) := by
                      intro q hq
                      rw [hfb] at hq
                      injection hq with hq2
                      rw [hq2] at h2
                      exact fun hc => h2 hc.1
                    have herr : ∃ e, OrderService.updateOrderStatus tbl false oid Status.paid
                        (paidPatchFromSession s now) now = Except.error e :=
                      updateOrderStatus_error_no_id_row hrow hguard
                    rcases herr with ⟨e1, he1⟩
                    rw [paidUpdateStep_error he1]
                    exact hoid
        | none =>
            rw [handleCompleted_update_none hm hlk]
            have hparts := getOrderById_none_parts (by rw [← serviceGetOrderById_eq]; exact hlk)
            have hguard : ∀ q, SupabaseAdapter.findOrderByStripeSessionId tbl oid = some q →
                ¬(q.status = Status.paid ∧ Status.paid = Status.paid) := by
              intro q hq
              rw [hparts.2] at hq
              cases hq
            have herr : ∃ e, OrderService.updateOrderStatus tbl false oid Status.paid
                (paidPatchFromSession s now) now = Except.error e :=
              updateOrderStatus_error_no_id_row hparts.1 hguard
            rcases herr with ⟨e1, he1⟩
            rw [paidUpdateStep_error he1]
            exact hoid
    | none =>
        cases hf : OrderService.findOrderByStripeSessionId tbl s.id with
        | some r =>
            have hfad : SupabaseAdapter.findOrderByStripeSessionId tbl s.id = some r := by
              rw [← serviceFindBySess_eq]; exact hf
            have hrmem : r ∈ tbl := mem_of_findBySess hfad
            have hrow : lookupId tbl r.id = some r := lookupId_of_mem_nodup hnd hrmem
            rw [handleCompleted_fallback_some hm hf]
            by_cases hp : r.status = Status.paid
            · have hnoop : OrderService.updateOrderStatus tbl false r.id Status.paid
                  (fallbackPaidPatch s now) now = Except.ok (tbl, r) :=
                updateOrderStatus_noop (getOrderById_of_lookup hrow) hp
              rw [paidUpdateStep_ok hnoop]
              exact hoid
            · have hne : o.id ≠ r.id := by
                intro hcontr
                rw [← hcontr] at hrow
                rw [hoid] at hrow
                injection hrow with h
                rw [h] at hpaid
                exact hp hpaid
              have hupd : OrderService.updateOrderStatus tbl false r.id Status.paid
                  (fallbackPaidPatch s now) now =
                  Except.ok
                    (replaceRow r.id (applyPatch r Status.paid (fallbackPaidPatch s now) now) tbl,
                     applyPatch r Status.paid (fallbackPaidPatch s now) now) :=
                updateOrderStatus_apply hrow (fun hc => hp hc.1)
              rw [paidUpdateStep_ok hupd]
              have hid2 : (applyPatch r Status.paid (fallbackPaidPatch s now) now).id = r.id := rfl
              show lookupId (replaceRow r.id _ tbl) o.id = some o
              rw [lookupId_replace_ne hid2 hne]
              exact hoid
        | none =>
            rw [handleCompleted_fallback_none hm hf]
            exact hoid
  · intro s hm
    show (lookupId (handleAsyncPaymentFailed s tbl now false).tbl o.id).map Order.status
        = some Status.failed
    rw [handleAsync_some hm]
    have hupd : OrderService.updateOrderStatus tbl false o.id Status.failed
        (asyncFailedPatch now) now =
        Except.ok
          (replaceRow o.id (applyPatch o Status.failed (asyncFailedPatch now) now) tbl,
           applyPatch o Status.failed (asyncFailedPatch now) now) :=
      updateOrderStatus_apply hoid (fun hc => Status.noConfusion hc.2)
    rw [failedUpdateStep_ok hupd]
    have hid2 : (applyPatch o Status.failed (asyncFailedPatch now) now).id = o.id := rfl
    show (lookupId (replaceRow o.id _ tbl) o.id).map Order.status = some Status.failed
    rw [lookupId_replace_self hid2 (by rw [hoid]; rfl)]
    rfl
  · intro p hpi
    show (lookupId (handlePaymentIntentFailed p tbl now false).tbl o.id).map Order.status
        = some Status.failed
    have hfo : SupabaseAdapter.findOrderByStripeSessionId tbl p.id = some o := by
      apply find?_unique_of_mem ho
      · simp [hpi]
      · intro b hb hpb
        exact hsess b hb o ho p.id (by simpa using hpb) hpi
    rw [handlePIF_some (by rw [serviceFindBySess_eq]; exact hfo)]
    have hupd : OrderService.updateOrderStatus tbl false o.id Status.failed
        (piFailedPatch p now) now =
        Except.ok
          (replaceRow o.id (applyPatch o Status.failed (piFailedPatch p now) now) tbl,
           applyPatch o Status.failed (piFailedPatch p now) now) :=
      updateOrderStatus_apply hoid (fun hc => Status.noConfusion hc.2)
    rw [failedUpdateStep_ok hupd]
    have hid2 : (applyPatch o Status.failed (piFailedPatch p now) now).id = o.id := rfl
    show (lookupId (replaceRow o.id _ tbl) o.id).map Order.status = some Status.failed
    rw [lookupId_replace_self hid2 (by rw [hoid]; rfl)]
    rfl

/-- Witness for the amended C1 at a concrete paid order: a completed
event leaves it unchanged while both failed events flip it to
failed. -/
theorem claim_C1_amended_witness :
    lookupId (handleEvent (StripeEvent.checkoutSessionCompleted fixSessB) [fixPaid] 5 false).tbl
      fixPaid.id = some fixPaid ∧
    (lookupId (handleEvent (StripeEvent.asyncPaymentFailed fixSessB) [fixPaid] 5 false).tbl
      fixPaid.id).map Order.status = some Status.failed ∧
    (lookupId (handleEvent (StripeEvent.paymentIntentFailed fixPIA) [fixPaid] 5 false).tbl
      fixPaid.id).map Order.status = some Status.failed :=
  ⟨(claim_C1_amended [fixPaid] fixPaid 5 (by simp) (by decide) (List.mem_singleton.mpr rfl) rfl).1
      fixSessB,
   (claim_C1_amended [fixPaid] fixPaid 5 (by simp) (by decide) (List.mem_singleton.mpr rfl) rfl).2.1
      fixSessB rfl,
   (claim_C1_amended [fixPaid] fixPaid 5 (by simp) (by decide) (List.mem_singleton.mpr rfl) rfl).2.2
      fixPIA rfl⟩


/-- Witness for C2 at a concrete pending order and event. -/
theorem claim_C2_witness :
    (handleEvent (StripeEvent.checkoutSessionCompleted fixSessB)
        (handleEvent (StripeEvent.checkoutSessionCompleted fixSessB) [fixPending] 20 false).tbl
        30 false).tbl
      = (handleEvent (StripeEvent.checkoutSessionCompleted fixSessB) [fixPending] 20 false).tbl ∧
    (handleEvent (StripeEvent.checkoutSessionCompleted fixSessB) [fixPending] 20 false).resp.isAck
      = true ∧
    (handleEvent (StripeEvent.checkoutSessionCompleted fixSessB)
        (handleEvent (StripeEvent.checkoutSessionCompleted fixSessB) [fixPending] 20 false).tbl
        30 false).resp.isAck = true :=
  claim_C2_webhook_idempotent [fixPending] fixSessB 20 30 (by simp)

end GW

namespace GW

/-- The fixture two-item cart has a positive total. -/
lemma fixCartTotalAB : 0 < cartTotalCents [fixItA, fixItB] := by
  unfold cartTotalCents fixItA fixItB
  norm_num

/-- The reordered fixture cart has a positive total. -/
lemma fixCartTotalBA : 0 < cartTotalCents [fixItB, fixItA] := by
  unfold cartTotalCents fixItA fixItB
  norm_num

/-- Counterexample to claim C3 as stated: the duplicate-pending lookup
compares the stringified id+quantity sequences in order, so two carts
with equal id+quantity multisets but different item order (same email,
within five minutes, first call succeeded with its open session
attached) do not deduplicate — the second call creates a new order and
returns a different session id and order id. -/
theorem claim_C3_counterexample :
    (itemSig [fixItA, fixItB]).Perm (itemSig [fixItB, fixItA]) ∧
    ((fixEnv2.now : Int) - 5 * 60 * 1000 < (fixEnv1.now : Int)) ∧
    fixEnv2.retrieve "cs_1" = Except.ok ⟨"cs_1", "open", "https://pay/1"⟩ ∧
    (createCheckout ⟨some [fixItA, fixItB], some "e@x.y", none, "en"⟩ fixEnv1 []).resp =
      CheckoutResp.okSession "cs_1" "ORD-1" "https://pay/1" false ∧
    (lookupId (createCheckout ⟨some [fixItA, fixItB], some "e@x.y", none, "en"⟩
        fixEnv1 []).tbl "ORD-1").map Order.stripeSessionId = some (some "cs_1") ∧
    (createCheckout ⟨some [fixItB, fixItA], some "e@x.y", none, "en"⟩ fixEnv2
        (createCheckout ⟨some [fixItA, fixItB], some "e@x.y", none, "en"⟩ fixEnv1 []).tbl).resp =
      CheckoutResp.okSession "cs_2" "ORD-2" "https://pay/2" false ∧
    (createCheckout ⟨some [fixItB, fixItA], some "e@x.y", none, "en"⟩ fixEnv2
        (createCheckout ⟨some [fixItA, fixItB], some "e@x.y", none, "en"⟩ fixEnv1 []).tbl).tbl.length
      = 2 := by
  have h1flow := createCheckout_to_flow ⟨some [fixItA, fixItB], some "e@x.y", none, "en"⟩
    fixEnv1 [] [fixItA, fixItB] rfl (by decide) (by decide) fixCartTotalAB rfl
  have h1ok := flow_provider_ok ⟨some [fixItA, fixItB], some "e@x.y", none, "en"⟩
    fixEnv1 [] [fixItA, fixItB] (cartTotalCents [fixItA, fixItB]) false rfl rfl rfl
    (fun o ho => absurd ho (List.not_mem_nil o))
  have hdup2 : (OrderService.getOrdersByEmail
      ([] ++ [applyPatch (newPendingOrder "ORD-1" [fixItA, fixItB] (some "e@x.y") none "en"
        (cartTotalCents [fixItA, fixItB] / 100) 100) Status.pending
        (attachPatch ⟨"cs_1", "https://pay/1", none⟩) 100]) "e@x.y").find?
      (dupMatch [fixItB, fixItA] 1100) = none := by
    rfl
  have h2flow := createCheckout_to_flow ⟨some [fixItB, fixItA], some "e@x.y", none, "en"⟩
    fixEnv2 ([] ++ [applyPatch (newPendingOrder "ORD-1" [fixItA, fixItB] (some "e@x.y") none "en"
        (cartTotalCents [fixItA, fixItB] / 100) 100) Status.pending
        (attachPatch ⟨"cs_1", "https://pay/1", none⟩) 100])
    [fixItB, fixItA] rfl (by decide) (by decide) fixCartTotalBA hdup2
  have hfresh2 : ∀ o ∈ ([] ++ [applyPatch (newPendingOrder "ORD-1" [fixItA, fixItB]
      (some "e@x.y") none "en" (cartTotalCents [fixItA, fixItB] / 100) 100) Status.pending
      (attachPatch ⟨"cs_1", "https://pay/1", none⟩) 100]), o.id ≠ "ORD-2" := by
    intro o ho
    rw [List.nil_append, List.mem_singleton] at ho
    subst ho
    decide
  have h2ok := flow_provider_ok ⟨some [fixItB, fixItA], some "e@x.y", none, "en"⟩
    fixEnv2 ([] ++ [applyPatch (newPendingOrder "ORD-1" [fixItA, fixItB] (some "e@x.y") none "en"
        (cartTotalCents [fixItA, fixItB] / 100) 100) Status.pending
        (attachPatch ⟨"cs_1", "https://pay/1", none⟩) 100])
    [fixItB, fixItA] (cartTotalCents [fixItB, fixItA]) false rfl rfl rfl hfresh2
  refine ⟨by decide, by decide, rfl, ?_, ?_, ?_, ?_⟩
  · rw [h1flow, h1ok]
    rfl
  · rw [h1flow, h1ok]
    rfl
  · rw [h1flow, h1ok]
    exact congrArg CheckoutOutcome.resp (h2flow.trans h2ok)
  · rw [h1flow, h1ok]
    exact congrArg (fun t => t.tbl.length) (h2flow.trans h2ok)


/-- Claim C3 amended: two createCheckout calls whose carts have
identical item-id+quantity sequences (same order of items) and whose
customer email is provided and equal, issued within five minutes,
where the first call succeeded with its session attached and the
provider still reports that session open, make the second call return
the same session id and order id and create no new order. -/
theorem claim_C3_amended
    (tbl0 : List Order) (items1 items2 : List Item) (e : String)
    (custName1 custName2 : Option String) (loc1 loc2 : String)
    (env1 env2 : CheckoutEnv) (cs : CreatedSession) (es : RetrievedSession)
    (hsig : itemSig items2 = itemSig items1)
    (hne1 : items1 ≠ []) (hval1 : ∀ i ∈ items1, validItem i = true)
    (htot1 : 0 < cartTotalCents items1)
    (hne2 : items2 ≠ []) (hval2 : ∀ i ∈ items2, validItem i = true)
    (htot2 : 0 < cartTotalCents items2)
    (hnomatch1 : (OrderService.getOrdersByEmail tbl0 e).find? (dupMatch items1 env1.now) = none)
    (hnomatch2 : ∀ o ∈ tbl0, dupMatch items2 env2.now o = false)
    (hfresh : ∀ o ∈ tbl0, o.id ≠ env1.newOrderId)
    (hcf : env1.createOrderFault = false) (haf : env1.attachFault = false)
    (hcr : env1.create = Except.ok cs)
    (hwin : (env2.now : Int) - 5 * 60 * 1000 < (env1.now : Int))
    (hretr : env2.retrieve cs.id = Except.ok es) (hes : es.sessionStatus = "open")
    (hesid : es.id = cs.id) :
    (createCheckout ⟨some items1, some e, custName1, loc1⟩ env1 tbl0).resp =
      CheckoutResp.okSession cs.id env1.newOrderId cs.url false ∧
    createCheckout ⟨some items2, some e, custName2, loc2⟩ env2
        (createCheckout ⟨some items1, some e, custName1, loc1⟩ env1 tbl0).tbl =
      ⟨(createCheckout ⟨some items1, some e, custName1, loc1⟩ env1 tbl0).tbl,
        CheckoutResp.okSession cs.id env1.newOrderId es.url true, true, false⟩ := by
  have h1flow := createCheckout_to_flow ⟨some items1, some e, custName1, loc1⟩ env1 tbl0 items1
    rfl hne1 hval1 htot1 hnomatch1
  have h1ok := flow_provider_ok ⟨some items1, some e, custName1, loc1⟩ env1 tbl0 items1
    (cartTotalCents items1) false hcf haf hcr hfresh
  have hlen : items1.length = items2.length := by
    have h := congrArg List.length hsig
    unfold itemSig at h
    rw [List.length_map, List.length_map] at h
    exact h.symm
  -- the order created and then session-attached by the first call
  have hdm : dupMatch items2 env2.now
      (applyPatch (newPendingOrder env1.newOrderId items1 (some e) custName1 loc1
        (cartTotalCents items1 / 100) env1.now) Status.pending (attachPatch cs) env1.now)
      = true := by
    unfold dupMatch
    simp only [Bool.and_eq_true, decide_eq_true_eq]
    exact ⟨⟨⟨rfl, hlen⟩, hsig.symm⟩, hwin⟩
  have hO1mem : (applyPatch (newPendingOrder env1.newOrderId items1 (some e) custName1 loc1
      (cartTotalCents items1 / 100) env1.now) Status.pending (attachPatch cs) env1.now)
      ∈ OrderService.getOrdersByEmail (tbl0 ++ [applyPatch (newPendingOrder env1.newOrderId items1
        (some e) custName1 loc1 (cartTotalCents items1 / 100) env1.now) Status.pending
        (attachPatch cs) env1.now]) e := by
    rw [mem_getOrdersByEmail]
    exact ⟨List.mem_append_right tbl0 (List.mem_singleton.mpr rfl), rfl⟩
  have hdupfind : (OrderService.getOrdersByEmail (tbl0 ++ [applyPatch (newPendingOrder
      env1.newOrderId items1 (some e) custName1 loc1 (cartTotalCents items1 / 100) env1.now)
      Status.pending (attachPatch cs) env1.now]) e).find? (dupMatch items2 env2.now)
      = some (applyPatch (newPendingOrder env1.newOrderId items1 (some e) custName1 loc1
        (cartTotalCents items1 / 100) env1.now) Status.pending (attachPatch cs) env1.now) := by
    apply find?_unique_of_mem hO1mem hdm
    intro b hb hpb
    rw [mem_getOrdersByEmail] at hb
    rcases List.mem_append.mp hb.1 with hbt | hbo
    · exact absurd hpb (by rw [hnomatch2 b hbt]; exact fun hc => Bool.false_ne_true hc)
    · exact List.mem_singleton.mp hbo
  have h2hit := createCheckout_dup_hit ⟨some items2, some e, custName2, loc2⟩ env2
    (tbl0 ++ [applyPatch (newPendingOrder env1.newOrderId items1 (some e) custName1 loc1
      (cartTotalCents items1 / 100) env1.now) Status.pending (attachPatch cs) env1.now])
    items2 rfl hne2 hval2 htot2 hdupfind rfl hretr hes
  constructor
  · rw [h1flow, h1ok]
  · rw [h1flow, h1ok]
    have h3 := h2hit
    rw [hesid] at h3
    exact h3

/-- Witness for the amended C3 at concrete carts and environments. -/
theorem claim_C3_amended_witness :
    (createCheckout ⟨some [fixItA, fixItB], some "e@x.y", none, "en"⟩ fixEnv1 []).resp =
      CheckoutResp.okSession "cs_1" "ORD-1" "https://pay/1" false ∧
    createCheckout ⟨some [fixItA, fixItB], some "e@x.y", none, "en"⟩ fixEnv2
        (createCheckout ⟨some [fixItA, fixItB], some "e@x.y", none, "en"⟩ fixEnv1 []).tbl =
      ⟨(createCheckout ⟨some [fixItA, fixItB], some "e@x.y", none, "en"⟩ fixEnv1 []).tbl,
        CheckoutResp.okSession "cs_1" "ORD-1" "https://pay/1" true, true, false⟩ :=
  claim_C3_amended [] [fixItA, fixItB] [fixItA, fixItB] "e@x.y" none none "en" "en"
    fixEnv1 fixEnv2 ⟨"cs_1", "https://pay/1", none⟩ ⟨"cs_1", "open", "https://pay/1"⟩
    rfl (by decide) (by decide) fixCartTotalAB (by decide) (by decide) fixCartTotalAB
    rfl (fun o ho => absurd ho (List.not_mem_nil o)) (fun o ho => absurd ho (List.not_mem_nil o))
    rfl rfl rfl (by decide) rfl rfl rfl
end GW
